import Mathlib

/-
  Verification development for the Companion-Mod coordinator
  (src/CompanionMod/main.cpp, CompanionCore.h, EngineAdapter.cpp).

  Modelling conventions:
  - Engine floats are modelled as rationals; the numeric literals of the
    source (2.0f, 3.0f, 50.0f, 0.10f, 1.2f, 0.8f) are exact in this range.
  - Tick counters (uint32_t) are modelled as Nat.  The source compares
    timers with unsigned subtraction against the current tick; in every
    reachable state each stamp is at most the current tick, so Nat
    truncated subtraction agrees with the uint32 arithmetic.  Theorems
    over arbitrary states carry the stamp-at-most-tick hypothesis.
  - The EngineAdapter is the world boundary: each call into it from the
    coordinator loop is recorded as an Effect.  The world truths it reads
    (ped existence and position) are threaded through the tick so that a
    read after an intra-tick teleport or spawn sees the updated value; the
    fresh per-tick values come from TickInputs.  The adapter checks both
    the stored handle and DOES_ENTITY_EXIST before acting; the model
    conflates a nonzero handle with existence (pedExists, playerExists),
    which no coordinator branch distinguishes.
  - Logging, on-screen text and the heartbeat counter are pure sinks with
    no behavioral effect (spec section 1); log lines are not modelled as
    effects, but the frame counter and the requestLog command are kept.
-/

namespace CompanionMod

/-- 3D vector, from CompanionCore.h (struct Vec3), components as rationals. -/
structure Vec3 where
  x : ℚ
  y : ℚ
  z : ℚ
deriving DecidableEq

/-- Squared distance, from main.cpp DistSq (lines 38-44). -/
def DistSq (a b : Vec3) : ℚ :=
  let dx := a.x - b.x
  let dy := a.y - b.y
  let dz := a.z - b.z
  dx * dx + dy * dy + dz * dz

/-- From CompanionCore.h, enum class CompanionMode. -/
inductive CompanionMode
  | Protection
  | Stay
  | Frenzy
deriving DecidableEq

/-- From CompanionCore.h, struct CompanionContext. -/
structure CompanionContext where
  tickCount : ℕ := 0
  deltaSeconds : ℚ := 0
  playerExists : Bool := false
  playerDead : Bool := false
  playerInVehicle : Bool := false
  playerPos : Vec3 := ⟨0, 0, 0⟩
deriving DecidableEq

/-- From CompanionCore.h, struct CompanionState. -/
structure CompanionState where
  mode : CompanionMode := CompanionMode.Protection
  spawned : Bool := false
  stayEnabled : Bool := false
  hasStayAnchor : Bool := false
  stayAnchor : Vec3 := ⟨0, 0, 0⟩
  ridingVehicle : Bool := false
deriving DecidableEq

/-- From CompanionCore.h, struct CompanionCommands (defaults as in source). -/
structure CompanionCommands where
  requestLog : Bool := false
  requestSpawn : Bool := false
  requestDespawn : Bool := false
  requestFollow : Bool := false
  followDistance : ℚ := 2
  followSpeed : ℚ := 3
  followRefreshTicks : ℕ := 60
  requestStay : Bool := false
deriving DecidableEq

/-- The Mode Decision, from CompanionCore.h, CompanionCore::Tick
(lines 63-92).  The source takes state by reference but never writes it,
so the model returns only the command batch. -/
def CompanionCore.Tick (ctx : CompanionContext) (state : CompanionState) :
    CompanionCommands :=
  let out : CompanionCommands := {}
  let out := if ctx.tickCount % 120 == 0 then { out with requestLog := true } else out
  if state.spawned && ctx.playerExists && !ctx.playerDead then
    if state.stayEnabled then
      { out with requestStay := true, requestFollow := false }
    else
      { out with requestStay := false, requestFollow := true,
                 followDistance := 2, followSpeed := 3, followRefreshTicks := 60 }
  else
    out

/-- Tuning constants, from main.cpp lines 60-64. -/
def FOLLOW_REFRESH_TICKS : ℕ := 60

def TELEPORT_DIST_METERS : ℚ := 50

def TELEPORT_DIST_SQ : ℚ := TELEPORT_DIST_METERS * TELEPORT_DIST_METERS

def TELEPORT_COOLDOWN_TICKS : ℕ := 300

def STAY_SNAP_TICKS : ℕ := 60

/-- Drift threshold for the stay re-snap, from main.cpp line 312
(DRIFT_SQ = 0.10f * 0.10f). -/
def DRIFT_SQ : ℚ := (1 / 10 : ℚ) * (1 / 10)

/-- Per-tick sensor readings and input edges consumed by one loop
iteration of ScriptMain.  pedExistsNow and pedPosNow are the world truths
at the start of the iteration (they are threaded through the tick as the
coordinator itself spawns, despawns and teleports the companion).
pedVehicleHandle is the sensor truth EngineAdapter::GetTestPedVehicleHandle
would report; the coordinator loop never calls it (relevant to claim C7). -/
structure TickInputs where
  isMissionActive : Bool := false
  f5Pressed : Bool := false
  f6Pressed : Bool := false
  f7Pressed : Bool := false
  playerExists : Bool := false
  playerDead : Bool := false
  playerInVehicle : Bool := false
  playerPos : Vec3 := ⟨0, 0, 0⟩
  pedExistsNow : Bool := false
  pedPosNow : Vec3 := ⟨0, 0, 0⟩
  playerVehicleHandle : ℤ := 0
  pedVehicleHandle : ℤ := 0
  seat0Free : Bool := false
  seat1Free : Bool := false
  seat2Free : Bool := false
  putPedOk : Bool := false
  spawnOkMission : Bool := false
  spawnOkF7 : Bool := false
  spawnOkCore : Bool := false
deriving DecidableEq

/-- The static variables of main.cpp (lines 46-74) plus the threaded world
truths about the companion ped.  Defaults are the static initializers. -/
structure LoopState where
  tickCount : ℕ := 0
  lastFollowTick : ℕ := 0
  lastTeleportTick : ℕ := 0
  stayToggle : Bool := false
  isStayingActive : Bool := false
  lastStaySnapTick : ℕ := 0
  wasMissionActive : Bool := false
  companionWasSpawnedBeforeMission : Bool := false
  stayToggleBeforeMission : Bool := false
  isRiding : Bool := false
  ridingVehicleHandle : ℤ := 0
  wasPlayerInVehicle : Bool := false
  st : CompanionState := {}
  pedExists : Bool := false
  pedPos : Vec3 := ⟨0, 0, 0⟩
  frameCount : ℕ := 0
deriving DecidableEq

/-- One EngineAdapter call issued by the coordinator loop. -/
inductive Effect
  | despawnPed
  | spawnAttempt (ok : Bool)
  | teleportNearPlayer (ox oy oz : ℚ)
  | clearTasks
  | freezePed (frozen : Bool)
  | setPedPos (p : Vec3)
  | taskFollow (dist speed : ℚ)
  | putIntoVehicle (veh seat : ℤ)
deriving DecidableEq

/-- Position offset used by both TeleportTestPedNearPlayer(1.2f, 0.8f, 0.0f)
call sites in main.cpp and by the CREATE_PED coordinates in
EngineAdapter::SpawnTestPed (player position plus (1.2, 0.8, 0)). -/
def teleportTarget (playerPos : Vec3) : Vec3 :=
  ⟨playerPos.x + 6 / 5, playerPos.y + 4 / 5, playerPos.z⟩

/-- EngineAdapter::GetTestPedPosition: zero vector when the ped is absent. -/
def pedPosRead (s : LoopState) : Vec3 :=
  if s.pedExists then s.pedPos else ⟨0, 0, 0⟩

/-- World update of EngineAdapter::TeleportTestPedNearPlayer: moves the ped
next to the player when both the ped and the player are present. -/
def teleportPedNearPlayer (i : TickInputs) (s : LoopState) : LoopState :=
  if s.pedExists && i.playerExists then
    { s with pedPos := teleportTarget i.playerPos }
  else s

/-- EngineAdapter::SpawnTestPed: returns success immediately when the ped
already exists, otherwise creates it next to the player when the model
load succeeds (the ok input).  Returns the updated world and the result. -/
def spawnTestPed (ok : Bool) (playerPos : Vec3) (s : LoopState) :
    LoopState × Bool :=
  if s.pedExists then (s, true)
  else if ok then ({ s with pedExists := true, pedPos := teleportTarget playerPos }, true)
  else (s, false)

/-- Mission suppression gate, main.cpp lines 101 and 106-175: tick counter
increment, fresh sensor truths, mission start edge, mission end edge, and
the previous-flag update. -/
def missionGatePhase (i : TickInputs) (s : LoopState) : LoopState × List Effect :=
  let s := { s with tickCount := s.tickCount + 1,
                    pedExists := i.pedExistsNow, pedPos := i.pedPosNow }
  let startRes :=
    if i.isMissionActive && !s.wasMissionActive then
      let s := { s with companionWasSpawnedBeforeMission := s.st.spawned,
                        stayToggleBeforeMission := s.stayToggle }
      let d :=
        if s.st.spawned then
          ({ s with st := { s.st with spawned := false }, pedExists := false },
           [Effect.despawnPed])
        else (s, ([] : List Effect))
      ({ d.1 with isRiding := false, ridingVehicleHandle := 0,
                  wasPlayerInVehicle := false,
                  lastFollowTick := 0, lastTeleportTick := 0,
                  isStayingActive := false }, d.2)
    else (s, [])
  let s := startRes.1
  let endRes :=
    if !i.isMissionActive && s.wasMissionActive then
      let s := { s with stayToggle := s.stayToggleBeforeMission }
      let r :=
        if s.companionWasSpawnedBeforeMission then
          let sp := spawnTestPed i.spawnOkMission i.playerPos s
          if sp.2 then
            ({ sp.1 with st := { sp.1.st with spawned := true } },
             [Effect.spawnAttempt true])
          else (sp.1, [Effect.spawnAttempt false])
        else (s, ([] : List Effect))
      ({ r.1 with isRiding := false, ridingVehicleHandle := 0,
                  wasPlayerInVehicle := false,
                  lastFollowTick := 0, lastTeleportTick := 0,
                  companionWasSpawnedBeforeMission := false }, r.2)
    else (s, [])
  let s := endRes.1
  ({ s with wasMissionActive := i.isMissionActive }, startRes.2 ++ endRes.2)

/-- Stay-while-riding release, main.cpp lines 213-220: with a stay
request while riding, extract the companion before Stay applies. -/
def vehicleReleaseStep (i : TickInputs) (cmd : CompanionCommands) (s : LoopState) :
    LoopState × List Effect :=
  if cmd.requestStay && s.isRiding && s.st.spawned then
    ({ teleportPedNearPlayer i s with isRiding := false, ridingVehicleHandle := 0,
                                      lastFollowTick := 0 },
     [Effect.teleportNearPlayer (6 / 5) (4 / 5) 0])
  else (s, [])

/-- Player-exit edge, main.cpp lines 223-234. -/
def vehicleExitStep (i : TickInputs) (s : LoopState) : LoopState × List Effect :=
  if s.wasPlayerInVehicle && !i.playerInVehicle then
    let t :=
      if s.isRiding && s.st.spawned then
        ({ teleportPedNearPlayer i s with lastFollowTick := 0 },
         [Effect.teleportNearPlayer (6 / 5) (4 / 5) 0])
      else (s, ([] : List Effect))
    ({ t.1 with isRiding := false, ridingVehicleHandle := 0 }, t.2)
  else (s, [])

/-- Mount attempt, main.cpp lines 237-273: seat probe in strict order on
the player's current vehicle handle. -/
def vehicleMountStep (i : TickInputs) (cmd : CompanionCommands) (s : LoopState) :
    LoopState × List Effect :=
  if i.playerInVehicle && s.st.spawned && !cmd.requestStay then
    let veh := i.playerVehicleHandle
    if veh != 0 && (!s.isRiding || veh != s.ridingVehicleHandle) then
      let chosenSeat : ℤ :=
        if i.seat0Free then 0
        else if i.seat1Free then 1
        else if i.seat2Free then 2
        else -999
      if chosenSeat != -999 then
        if i.putPedOk then
          ({ s with isRiding := true, ridingVehicleHandle := veh,
                    lastFollowTick := s.tickCount },
           [Effect.putIntoVehicle veh chosenSeat])
        else (s, [Effect.putIntoVehicle veh chosenSeat])
      else
        ({ s with isRiding := false, ridingVehicleHandle := 0 }, [])
    else (s, [])
  else (s, [])

/-- Vehicle Ride Coordinator, main.cpp lines 209-279: stay-while-riding
release, player-exit edge, mount attempt, previous-occupancy update and
the ridingVehicle state mirror, in source order. -/
def vehicleRidePhase (i : TickInputs) (cmd : CompanionCommands) (s : LoopState) :
    LoopState × List Effect :=
  let rel := vehicleReleaseStep i cmd s
  let ex := vehicleExitStep i rel.1
  let mnt := vehicleMountStep i cmd ex.1
  ({ mnt.1 with wasPlayerInVehicle := i.playerInVehicle,
                st := { mnt.1.st with ridingVehicle := mnt.1.isRiding } },
   rel.2 ++ ex.2 ++ mnt.2)

/-- Hold-Position Executor, main.cpp lines 284-338: stay entry (anchor
capture, clear tasks, freeze), periodic re-snap, and stay exit. -/
def stayPhase (cmd : CompanionCommands) (s : LoopState) : LoopState × List Effect :=
  if cmd.requestStay && s.st.spawned then
    let ent :=
      if !s.isStayingActive then
        ({ s with st := { s.st with stayAnchor := pedPosRead s, hasStayAnchor := true },
                  lastStaySnapTick := s.tickCount,
                  isStayingActive := true, lastFollowTick := 0 },
         [Effect.clearTasks, Effect.freezePed true])
      else (s, ([] : List Effect))
    let s := ent.1
    let snap :=
      if s.st.hasStayAnchor && decide (s.tickCount - s.lastStaySnapTick ≥ STAY_SNAP_TICKS) then
        let corrected :=
          if decide (DistSq (pedPosRead s) s.st.stayAnchor > DRIFT_SQ) then
            (if s.pedExists then { s with pedPos := s.st.stayAnchor } else s,
             [Effect.setPedPos s.st.stayAnchor])
          else (s, ([] : List Effect))
        ({ corrected.1 with lastStaySnapTick := corrected.1.tickCount }, corrected.2)
      else (s, [])
    (snap.1, ent.2 ++ snap.2)
  else
    if s.isStayingActive then
      ({ s with isStayingActive := false, st := { s.st with hasStayAnchor := false },
                lastStaySnapTick := 0, lastFollowTick := 0 },
       [Effect.freezePed false])
    else (s, [])

/-- Follow Executor, main.cpp lines 343-357. -/
def followPhase (i : TickInputs) (cmd : CompanionCommands) (s : LoopState) :
    LoopState × List Effect :=
  if !cmd.requestStay && cmd.requestFollow && s.st.spawned && !s.isRiding
      && !i.playerInVehicle then
    let refresh := if cmd.followRefreshTicks > 0 then cmd.followRefreshTicks
                   else FOLLOW_REFRESH_TICKS
    if s.tickCount - s.lastFollowTick > refresh then
      ({ s with lastFollowTick := s.tickCount },
       [Effect.taskFollow cmd.followDistance cmd.followSpeed])
    else (s, [])
  else
    ({ s with lastFollowTick := 0 }, [])

/-- Auto-Recovery, main.cpp lines 373-396: distance-triggered teleport
with cooldown, or cooldown reset when the gate is closed. -/
def autoTeleportPhase (i : TickInputs) (cmd : CompanionCommands) (s : LoopState) :
    LoopState × List Effect :=
  if !cmd.requestStay && s.st.spawned && !i.playerInVehicle then
    let tooFar := decide (DistSq i.playerPos (pedPosRead s) > TELEPORT_DIST_SQ)
    let canTeleport := decide (s.tickCount - s.lastTeleportTick ≥ TELEPORT_COOLDOWN_TICKS)
    if tooFar && canTeleport then
      ({ teleportPedNearPlayer i s with lastTeleportTick := s.tickCount,
                                        lastFollowTick := 0 },
       [Effect.teleportNearPlayer (6 / 5) (4 / 5) 0])
    else (s, [])
  else
    ({ s with lastTeleportTick := 0 }, [])

/-- F7 spawn/despawn toggle, main.cpp lines 399-419. -/
def f7Phase (i : TickInputs) (s : LoopState) : LoopState × List Effect :=
  if i.f7Pressed then
    if !s.st.spawned then
      let r := spawnTestPed i.spawnOkF7 i.playerPos s
      if r.2 then
        ({ r.1 with st := { r.1.st with spawned := true } }, [Effect.spawnAttempt true])
      else (r.1, [Effect.spawnAttempt false])
    else
      ({ s with st := { s.st with spawned := false }, pedExists := false },
       [Effect.despawnPed])
  else (s, [])

/-- Decision-driven spawn/despawn consumption, main.cpp lines 421-439. -/
def coreSpawnPhase (i : TickInputs) (cmd : CompanionCommands) (s : LoopState) :
    LoopState × List Effect :=
  let sp :=
    if cmd.requestSpawn && !s.st.spawned then
      let r := spawnTestPed i.spawnOkCore i.playerPos s
      if r.2 then
        ({ r.1 with st := { r.1.st with spawned := true } }, [Effect.spawnAttempt true])
      else (r.1, [Effect.spawnAttempt false])
    else (s, ([] : List Effect))
  let s := sp.1
  let dp :=
    if cmd.requestDespawn && s.st.spawned then
      ({ s with st := { s.st with spawned := false }, pedExists := false },
       [Effect.despawnPed])
    else (s, [])
  (dp.1, sp.2 ++ dp.2)

/-- Manual recall (F5), main.cpp lines 454-491: disabled while the mission
flag is active; forces stay exit, teleports the companion to the player,
resets the follow cooldown and stamps the teleport cooldown. -/
def recallPhase (i : TickInputs) (s : LoopState) : LoopState × List Effect :=
  if !i.isMissionActive && i.f5Pressed then
    if !s.st.spawned then (s, [])
    else
      let ex :=
        if s.stayToggle || s.isStayingActive then
          let s := { s with stayToggle := false, st := { s.st with stayEnabled := false } }
          let f :=
            if s.isStayingActive then
              ({ s with isStayingActive := false }, [Effect.freezePed false])
            else (s, ([] : List Effect))
          ({ f.1 with st := { f.1.st with hasStayAnchor := false } }, f.2)
        else (s, ([] : List Effect))
      let s := teleportPedNearPlayer i ex.1
      ({ s with lastFollowTick := 0, lastTeleportTick := s.tickCount },
       ex.2 ++ [Effect.teleportNearPlayer (6 / 5) (4 / 5) 0])
  else (s, [])

/-- The downstream executors in source order: Vehicle Ride Coordinator,
Hold-Position Executor, Follow Executor, Auto-Recovery (main.cpp lines
209-396). -/
def execPhase (i : TickInputs) (cmd : CompanionCommands) (s : LoopState) :
    LoopState × List Effect :=
  let v := vehicleRidePhase i cmd s
  let h := stayPhase cmd v.1
  let f := followPhase i cmd h.1
  let a := autoTeleportPhase i cmd f.1
  (a.1, v.2 ++ h.2 ++ f.2 ++ a.2)

/-- The CompanionContext built at main.cpp lines 188-195. -/
def buildCtx (i : TickInputs) (s : LoopState) : CompanionContext :=
  { tickCount := s.tickCount, deltaSeconds := 1 / 60,
    playerExists := i.playerExists, playerDead := i.playerDead,
    playerInVehicle := i.playerInVehicle, playerPos := i.playerPos }

/-- The EngineAdapter calls of one loop iteration, grouped by the section
of ScriptMain that issued them. -/
structure TickTrace where
  gateEffects : List Effect := []
  execEffects : List Effect := []
  lifecycleEffects : List Effect := []
  recallEffects : List Effect := []
deriving DecidableEq

/-- One iteration of the ScriptMain while loop (main.cpp lines 99-520),
in source order: mission gate, F6 stay toggle, context build and state
mirroring, Mode Decision, executors, F7 toggle, decision-driven
spawn/despawn, manual recall, frame counter. -/
def tick (i : TickInputs) (s : LoopState) : LoopState × TickTrace :=
  let g := missionGatePhase i s
  let s := g.1
  let s :=
    if i.f6Pressed then
      let s := { s with stayToggle := !s.stayToggle }
      if !s.stayToggle then { s with lastFollowTick := 0 } else s
    else s
  let ctx := buildCtx i s
  let s := { s with st := { s.st with spawned := s.pedExists, stayEnabled := s.stayToggle } }
  let cmd := CompanionCore.Tick ctx s.st
  let e := execPhase i cmd s
  let f7 := f7Phase i e.1
  let cs := coreSpawnPhase i cmd f7.1
  let r := recallPhase i cs.1
  ({ r.1 with frameCount := r.1.frameCount + 1 },
   { gateEffects := g.2, execEffects := e.2,
     lifecycleEffects := f7.2 ++ cs.2, recallEffects := r.2 })

/-- The F6 stay toggle section alone (main.cpp lines 178-186). -/
def f6Step (i : TickInputs) (s : LoopState) : LoopState :=
  if i.f6Pressed then
    let s2 := { s with stayToggle := !s.stayToggle }
    if !s2.stayToggle then { s2 with lastFollowTick := 0 } else s2
  else s

/-- The sensor mirroring into CompanionCore state (main.cpp lines 198, 201). -/
def mirrorStep (s : LoopState) : LoopState :=
  { s with st := { s.st with spawned := s.pedExists, stayEnabled := s.stayToggle } }

/-- The frame counter increment at the bottom of the loop. -/
def frameStep (s : LoopState) : LoopState :=
  { s with frameCount := s.frameCount + 1 }

/-- The tick decomposed into the named sub-steps; definitionally the same
function as the tick itself. -/
def tickAlt (i : TickInputs) (s : LoopState) : LoopState × TickTrace :=
  let g := missionGatePhase i s
  let s := f6Step i g.1
  let ctx := buildCtx i s
  let s := mirrorStep s
  let cmd := CompanionCore.Tick ctx s.st
  let e := execPhase i cmd s
  let f7 := f7Phase i e.1
  let cs := coreSpawnPhase i cmd f7.1
  let r := recallPhase i cs.1
  (frameStep r.1,
   { gateEffects := g.2, execEffects := e.2,
     lifecycleEffects := f7.2 ++ cs.2, recallEffects := r.2 })

/-- The state at coordinator start: the static initializers of main.cpp. -/
def initialState : LoopState := {}

/-- Run a sequence of ticks, collecting each tick's trace. -/
def runTicks : List TickInputs → LoopState → LoopState × List TickTrace
  | [], s => (s, [])
  | i :: rest, s =>
    let r := tick i s
    let rr := runTicks rest r.1
    (rr.1, r.2 :: rr.2)

/-- Whether an effect is the follow directive. -/
def isTaskFollow : Effect → Bool
  | Effect.taskFollow _ _ => true
  | _ => false

/-- Whether an effect is a teleport of the companion to the player. -/
def isTeleport : Effect → Bool
  | Effect.teleportNearPlayer _ _ _ => true
  | _ => false

/-- Whether the Follow Executor re-issued the follow directive this tick. -/
def followReissued (t : TickTrace) : Bool :=
  t.execEffects.any isTaskFollow

/-- Number of companion teleports in an effect list. -/
def teleportCount (l : List Effect) : ℕ :=
  (l.filter isTeleport).length

/-- Number of companion teleports across a whole tick. -/
def traceTeleports (t : TickTrace) : ℕ :=
  teleportCount t.gateEffects + teleportCount t.execEffects
    + teleportCount t.lifecycleEffects + teleportCount t.recallEffects

/-- The Mode Decision requests stay exactly when the companion is spawned,
the player exists and is alive, and stayEnabled holds. -/
lemma coreTick_requestStay (ctx : CompanionContext) (st : CompanionState) :
    (CompanionCore.Tick ctx st).requestStay
      = (st.spawned && ctx.playerExists && !ctx.playerDead && st.stayEnabled) := by
  unfold CompanionCore.Tick
  cases hsp : st.spawned <;> cases hpe : ctx.playerExists <;>
    cases hpd : ctx.playerDead <;> cases hse : st.stayEnabled <;>
    by_cases h : ctx.tickCount % 120 == 0 <;> simp_all

/-- The Mode Decision requests follow exactly when the companion is
spawned, the player exists and is alive, and stayEnabled is off. -/
lemma coreTick_requestFollow (ctx : CompanionContext) (st : CompanionState) :
    (CompanionCore.Tick ctx st).requestFollow
      = (st.spawned && ctx.playerExists && !ctx.playerDead && !st.stayEnabled) := by
  unfold CompanionCore.Tick
  cases hsp : st.spawned <;> cases hpe : ctx.playerExists <;>
    cases hpd : ctx.playerDead <;> cases hse : st.stayEnabled <;>
    by_cases h : ctx.tickCount % 120 == 0 <;> simp_all

/-- The Mode Decision never requests a spawn. -/
lemma coreTick_requestSpawn (ctx : CompanionContext) (st : CompanionState) :
    (CompanionCore.Tick ctx st).requestSpawn = false := by
  unfold CompanionCore.Tick
  by_cases h : ctx.tickCount % 120 == 0 <;> split_ifs <;> simp_all

/-- The Mode Decision never requests a despawn. -/
lemma coreTick_requestDespawn (ctx : CompanionContext) (st : CompanionState) :
    (CompanionCore.Tick ctx st).requestDespawn = false := by
  unfold CompanionCore.Tick
  by_cases h : ctx.tickCount % 120 == 0 <;> split_ifs <;> simp_all

/-- The Mode Decision always carries follow distance 2. -/
lemma coreTick_followDistance (ctx : CompanionContext) (st : CompanionState) :
    (CompanionCore.Tick ctx st).followDistance = 2 := by
  unfold CompanionCore.Tick
  by_cases h : ctx.tickCount % 120 == 0 <;> split_ifs <;> simp_all

/-- The Mode Decision always carries follow speed 3. -/
lemma coreTick_followSpeed (ctx : CompanionContext) (st : CompanionState) :
    (CompanionCore.Tick ctx st).followSpeed = 3 := by
  unfold CompanionCore.Tick
  by_cases h : ctx.tickCount % 120 == 0 <;> split_ifs <;> simp_all

/-- The Mode Decision always carries refresh interval 60. -/
lemma coreTick_followRefreshTicks (ctx : CompanionContext) (st : CompanionState) :
    (CompanionCore.Tick ctx st).followRefreshTicks = 60 := by
  unfold CompanionCore.Tick
  by_cases h : ctx.tickCount % 120 == 0 <;> split_ifs <;> simp_all

/-- Claim C2: the Mode Decision is a function of context and state that,
when the companion is spawned, the player exists and the player is not
dead, emits exactly one of a stay request (when stayEnabled) or a follow
request with distance 2, speed 3 and refresh interval 60 (otherwise);
when any precondition fails it emits neither; and no emitted batch has
both the follow and the stay request set. -/
theorem C2_mode_decision (ctx : CompanionContext) (st : CompanionState) :
    ¬((CompanionCore.Tick ctx st).requestFollow = true
        ∧ (CompanionCore.Tick ctx st).requestStay = true)
    ∧ (st.spawned = true → ctx.playerExists = true → ctx.playerDead = false →
        (st.stayEnabled = true →
           (CompanionCore.Tick ctx st).requestStay = true
           ∧ (CompanionCore.Tick ctx st).requestFollow = false)
        ∧ (st.stayEnabled = false →
           (CompanionCore.Tick ctx st).requestFollow = true
           ∧ (CompanionCore.Tick ctx st).requestStay = false
           ∧ (CompanionCore.Tick ctx st).followDistance = 2
           ∧ (CompanionCore.Tick ctx st).followSpeed = 3
           ∧ (CompanionCore.Tick ctx st).followRefreshTicks = 60))
    ∧ (¬(st.spawned = true ∧ ctx.playerExists = true ∧ ctx.playerDead = false) →
        (CompanionCore.Tick ctx st).requestFollow = false
        ∧ (CompanionCore.Tick ctx st).requestStay = false) := by
  unfold CompanionCore.Tick
  rcases st with ⟨mode, spawned, stayEnabled, hA, anch, rv⟩
  rcases ctx with ⟨tc, ds, pe, pd, piv, pp⟩
  cases spawned <;> cases pe <;> cases pd <;> cases stayEnabled <;>
    by_cases h : tc % 120 == 0 <;> simp_all

/-- Claim C2 witness: concrete spawned, alive, follow-mode instance. -/
theorem C2_mode_decision_witness :
    (CompanionCore.Tick { tickCount := 1, playerExists := true }
        { spawned := true }).requestFollow = true
    ∧ (CompanionCore.Tick { tickCount := 1, playerExists := true }
        { spawned := true }).requestStay = false := by
  have h := (C2_mode_decision { tickCount := 1, playerExists := true }
    { spawned := true }).2.1 rfl rfl rfl
  exact ⟨((h.2) rfl).1, ((h.2) rfl).2.1⟩

/-- Claim C3: the Follow Executor re-issues the follow directive exactly
when the gating condition holds (follow requested, companion spawned, not
riding, player on foot) and the ticks since the last issue exceed the
effective refresh interval; the issue stamps the last-follow tick to the
current tick, and any tick with the gating condition false resets the
last-follow tick to 0.  The batch-invariant hypothesis (follow and stay
never both requested, claim C2) identifies the gate of the source with
the gate of the claim; the stamp-at-most-tick hypothesis makes Nat
subtraction agree with the uint32 arithmetic of the source. -/
theorem C3_follow_cooldown (i : TickInputs) (cmd : CompanionCommands) (s : LoopState)
    (hinv : ¬(cmd.requestFollow = true ∧ cmd.requestStay = true))
    (hle : s.lastFollowTick ≤ s.tickCount) :
    (cmd.requestFollow = true → s.st.spawned = true → s.isRiding = false →
       i.playerInVehicle = false →
       ((followPhase i cmd s).2 = [Effect.taskFollow cmd.followDistance cmd.followSpeed]
          ↔ s.tickCount - s.lastFollowTick >
              (if cmd.followRefreshTicks > 0 then cmd.followRefreshTicks
               else FOLLOW_REFRESH_TICKS))
       ∧ (s.tickCount - s.lastFollowTick >
            (if cmd.followRefreshTicks > 0 then cmd.followRefreshTicks
             else FOLLOW_REFRESH_TICKS) →
            (followPhase i cmd s).1.lastFollowTick = s.tickCount)
       ∧ (¬(s.tickCount - s.lastFollowTick >
            (if cmd.followRefreshTicks > 0 then cmd.followRefreshTicks
             else FOLLOW_REFRESH_TICKS)) →
            (followPhase i cmd s).1.lastFollowTick = s.lastFollowTick
            ∧ (followPhase i cmd s).2 = []))
    ∧ (¬(cmd.requestFollow = true ∧ s.st.spawned = true ∧ s.isRiding = false
          ∧ i.playerInVehicle = false) →
        (followPhase i cmd s).1.lastFollowTick = 0 ∧ (followPhase i cmd s).2 = []) := by
  constructor
  · intro hf hs hr hv
    have hstay : cmd.requestStay = false := by
      cases h : cmd.requestStay
      · rfl
      · exact absurd ⟨hf, h⟩ hinv
    unfold followPhase
    simp only [hf, hs, hr, hv, hstay, Bool.not_false, Bool.true_and, Bool.and_true,
      Bool.and_self, if_true]
    split <;> split_ifs <;> simp_all
  · intro hng
    unfold followPhase
    rcases hrs : cmd.requestStay
    · rcases hrf : cmd.requestFollow
      · simp [hrs, hrf]
      · rcases hsp : s.st.spawned
        · simp [hrs, hrf, hsp]
        · rcases hrd : s.isRiding
          · rcases hvv : i.playerInVehicle
            · exact absurd ⟨hrf, hsp, hrd, hvv⟩ hng
            · simp [hrs, hrf, hsp, hrd, hvv]
          · simp [hrs, hrf, hsp, hrd]
    · simp [hrs]

/-- Claim C3 witness: gate holds, cooldown has elapsed, directive issued. -/
theorem C3_follow_cooldown_witness :
    (followPhase { } { requestFollow := true }
        { tickCount := 100, st := { spawned := true } }).2
      = [Effect.taskFollow 2 3]
    ∧ (followPhase { } { requestFollow := true }
        { tickCount := 100, st := { spawned := true } }).1.lastFollowTick = 100 := by
  have h := (C3_follow_cooldown { } { requestFollow := true }
    { tickCount := 100, st := { spawned := true } }
    (by decide) (by decide)).1 rfl rfl rfl rfl
  exact ⟨h.1.mpr (by decide), h.2.1 (by decide)⟩

/-- Claim C8: while hold-position is active, once at least 60 ticks have
elapsed since the last check the squared distance between the current
companion position and the anchor is compared against the drift threshold
(one tenth of a distance unit, squared), the companion is snapped back to
the anchor exactly when the squared distance exceeds it, and the resnap
timer is re-stamped at every check. -/
theorem C8_stay_resnap (cmd : CompanionCommands) (s : LoopState)
    (hstay : cmd.requestStay = true) (hsp : s.st.spawned = true)
    (hact : s.isStayingActive = true) (hanch : s.st.hasStayAnchor = true)
    (hle : s.lastStaySnapTick ≤ s.tickCount) :
    (s.tickCount - s.lastStaySnapTick ≥ STAY_SNAP_TICKS →
       ((stayPhase cmd s).2 = [Effect.setPedPos s.st.stayAnchor]
          ↔ DistSq (pedPosRead s) s.st.stayAnchor > DRIFT_SQ)
       ∧ (¬(DistSq (pedPosRead s) s.st.stayAnchor > DRIFT_SQ) → (stayPhase cmd s).2 = [])
       ∧ (stayPhase cmd s).1.lastStaySnapTick = s.tickCount)
    ∧ (s.tickCount - s.lastStaySnapTick < STAY_SNAP_TICKS →
       (stayPhase cmd s).2 = []
       ∧ (stayPhase cmd s).1.lastStaySnapTick = s.lastStaySnapTick) := by
  constructor
  · intro hge
    by_cases hd : DistSq (pedPosRead s) s.st.stayAnchor > DRIFT_SQ
    all_goals simp [stayPhase, hstay, hsp, hact, hanch, hge, hd]
    all_goals try (split_ifs <;> simp_all)
  · intro hlt
    have hng : ¬(s.tickCount - s.lastStaySnapTick ≥ STAY_SNAP_TICKS) :=
      Nat.not_le.mpr hlt
    simp [stayPhase, hstay, hsp, hact, hanch, hng]

/-- Claim C8 witness: active hold, check due, drift above threshold. -/
theorem C8_stay_resnap_witness :
    (stayPhase { requestStay := true }
        { tickCount := 100, lastStaySnapTick := 10, isStayingActive := true,
          st := { spawned := true, hasStayAnchor := true, stayAnchor := ⟨0, 0, 0⟩ },
          pedExists := true, pedPos := ⟨1, 0, 0⟩ }).2
      = [Effect.setPedPos (⟨0, 0, 0⟩ : Vec3)] := by
  have h := (C8_stay_resnap { requestStay := true }
    { tickCount := 100, lastStaySnapTick := 10, isStayingActive := true,
      st := { spawned := true, hasStayAnchor := true, stayAnchor := ⟨0, 0, 0⟩ },
      pedExists := true, pedPos := ⟨1, 0, 0⟩ }
    rfl rfl rfl rfl (by decide)).1 (by decide)
  exact h.1.mpr (by norm_num [DistSq, pedPosRead, DRIFT_SQ])

/-- Behavior of one Auto-Recovery evaluation: with the gate open the
teleport fires exactly when the companion is too far and the cooldown has
elapsed, stamping the teleport tick and resetting the follow tick; with
the gate closed the teleport timer is reset to 0. -/
lemma autoTeleportPhase_spec (i : TickInputs) (cmd : CompanionCommands) (s : LoopState) :
    (cmd.requestStay = false → s.st.spawned = true → i.playerInVehicle = false →
       (((autoTeleportPhase i cmd s).2 = [Effect.teleportNearPlayer (6 / 5) (4 / 5) 0])
          ↔ (DistSq i.playerPos (pedPosRead s) > TELEPORT_DIST_SQ
             ∧ s.tickCount - s.lastTeleportTick ≥ TELEPORT_COOLDOWN_TICKS))
       ∧ (DistSq i.playerPos (pedPosRead s) > TELEPORT_DIST_SQ →
            s.tickCount - s.lastTeleportTick ≥ TELEPORT_COOLDOWN_TICKS →
            (autoTeleportPhase i cmd s).1.lastTeleportTick = s.tickCount
            ∧ (autoTeleportPhase i cmd s).1.lastFollowTick = 0)
       ∧ (¬(DistSq i.playerPos (pedPosRead s) > TELEPORT_DIST_SQ
             ∧ s.tickCount - s.lastTeleportTick ≥ TELEPORT_COOLDOWN_TICKS) →
            (autoTeleportPhase i cmd s).2 = []
            ∧ (autoTeleportPhase i cmd s).1.lastTeleportTick = s.lastTeleportTick))
    ∧ (¬(cmd.requestStay = false ∧ s.st.spawned = true ∧ i.playerInVehicle = false) →
        (autoTeleportPhase i cmd s).1.lastTeleportTick = 0
        ∧ (autoTeleportPhase i cmd s).2 = []) := by
  constructor
  · intro hstay hsp hpv
    by_cases hfar : DistSq i.playerPos (pedPosRead s) > TELEPORT_DIST_SQ <;>
      by_cases hcd : s.tickCount - s.lastTeleportTick ≥ TELEPORT_COOLDOWN_TICKS <;>
      simp [autoTeleportPhase, teleportPedNearPlayer, hstay, hsp, hpv, hfar, hcd]
  · intro hng
    rcases hrs : cmd.requestStay
    · rcases hsp : s.st.spawned
      · simp [autoTeleportPhase, hrs, hsp]
      · rcases hpv : i.playerInVehicle
        · exact absurd ⟨hrs, hsp, hpv⟩ hng
        · simp [autoTeleportPhase, hrs, hsp, hpv]
    · simp [autoTeleportPhase, hrs]

/-- Inputs of the claim C4 scenario: mission inactive, no key edges,
player alive and on foot, companion present, and the companion
continuously too far from the player. -/
def c4Input (i : TickInputs) : Prop :=
  i.isMissionActive = false ∧ i.f5Pressed = false ∧ i.f6Pressed = false
    ∧ i.f7Pressed = false ∧ i.playerExists = true ∧ i.playerDead = false
    ∧ i.playerInVehicle = false ∧ i.pedExistsNow = true
    ∧ DistSq i.playerPos i.pedPosNow > TELEPORT_DIST_SQ

/-- Steady coordinator state for the claim C4 scenario: not suppressed,
stay off, not riding. -/
def c4Steady (s : LoopState) : Prop :=
  s.wasMissionActive = false ∧ s.stayToggle = false ∧ s.isStayingActive = false
    ∧ s.isRiding = false ∧ s.wasPlayerInVehicle = false

/-- The mission gate without an edge: only the tick counter, the fresh
sensor truths and the previous-flag update happen. -/
lemma missionGatePhase_noedge (i : TickInputs) (s : LoopState)
    (h : i.isMissionActive = s.wasMissionActive) :
    missionGatePhase i s =
      ({ s with tickCount := s.tickCount + 1, pedExists := i.pedExistsNow,
                pedPos := i.pedPosNow, wasMissionActive := i.isMissionActive }, []) := by
  cases hw : s.wasMissionActive <;> rw [hw] at h <;> simp [missionGatePhase, h, hw]

/-- The Vehicle Ride Coordinator is inert while the player is on foot and
was on foot, and the companion is not riding. -/
lemma vehicleRidePhase_noop (i : TickInputs) (cmd : CompanionCommands) (s : LoopState)
    (hr : s.isRiding = false) (hw : s.wasPlayerInVehicle = false)
    (hv : i.playerInVehicle = false) :
    vehicleRidePhase i cmd s =
      ({ s with wasPlayerInVehicle := false,
                st := { s.st with ridingVehicle := false } }, []) := by
  simp [vehicleRidePhase, vehicleReleaseStep, vehicleExitStep, vehicleMountStep, hr, hw, hv]

/-- The Hold-Position Executor is inert without a stay request while not
already holding. -/
lemma stayPhase_noop (cmd : CompanionCommands) (s : LoopState)
    (hstay : cmd.requestStay = false) (hact : s.isStayingActive = false) :
    stayPhase cmd s = (s, []) := by
  simp [stayPhase, hstay, hact]

/-- The three possible outcomes of the Follow Executor. -/
lemma followPhase_cases (i : TickInputs) (cmd : CompanionCommands) (s : LoopState) :
    followPhase i cmd s
        = ({ s with lastFollowTick := s.tickCount },
           [Effect.taskFollow cmd.followDistance cmd.followSpeed])
    ∨ followPhase i cmd s = (s, [])
    ∨ followPhase i cmd s = ({ s with lastFollowTick := 0 }, []) := by
  unfold followPhase
  dsimp only
  split_ifs <;>
    first
      | exact Or.inl rfl
      | exact Or.inr (Or.inl rfl)
      | exact Or.inr (Or.inr rfl)

/-- The Follow Executor fires when its gate is open and the cooldown has
elapsed. -/
lemma followPhase_fire (i : TickInputs) (cmd : CompanionCommands) (s : LoopState)
    (hstay : cmd.requestStay = false) (hf : cmd.requestFollow = true)
    (hsp : s.st.spawned = true) (hr : s.isRiding = false)
    (hv : i.playerInVehicle = false)
    (ht : s.tickCount - s.lastFollowTick >
      (if cmd.followRefreshTicks > 0 then cmd.followRefreshTicks
       else FOLLOW_REFRESH_TICKS)) :
    followPhase i cmd s =
      ({ s with lastFollowTick := s.tickCount },
       [Effect.taskFollow cmd.followDistance cmd.followSpeed]) := by
  simp only [followPhase, hstay, hf, hsp, hr, hv, Bool.not_false, Bool.true_and,
    Bool.and_true, Bool.and_self, if_true]
  split_ifs with h1 h2
  · rfl
  · exact absurd (by simpa [h1] using ht) h2
  · rfl
  · rename_i h2
    exact absurd (by simpa [h1] using ht) h2

/-- The Follow Executor skips while its gate is open but the cooldown has
not elapsed. -/
lemma followPhase_skip (i : TickInputs) (cmd : CompanionCommands) (s : LoopState)
    (hstay : cmd.requestStay = false) (hf : cmd.requestFollow = true)
    (hsp : s.st.spawned = true) (hr : s.isRiding = false)
    (hv : i.playerInVehicle = false)
    (ht : s.tickCount - s.lastFollowTick ≤
      (if cmd.followRefreshTicks > 0 then cmd.followRefreshTicks
       else FOLLOW_REFRESH_TICKS)) :
    followPhase i cmd s = (s, []) := by
  have htn : ¬(s.tickCount - s.lastFollowTick >
      (if cmd.followRefreshTicks > 0 then cmd.followRefreshTicks
       else FOLLOW_REFRESH_TICKS)) := Nat.not_lt.mpr ht
  simp only [followPhase, hstay, hf, hsp, hr, hv, Bool.not_false, Bool.true_and,
    Bool.and_true, Bool.and_self, if_true]
  split_ifs with h1 h2
  · exact absurd (by simpa [h1] using h2) htn
  · rfl
  · rename_i h2
    exact absurd (by simpa [h1] using h2) htn
  · rfl

/-- Auto-Recovery fires when the gate is open, the companion (present,
with the player present) is too far, and the cooldown has elapsed. -/
lemma autoTeleportPhase_fire (i : TickInputs) (cmd : CompanionCommands) (s : LoopState)
    (hstay : cmd.requestStay = false) (hsp : s.st.spawned = true)
    (hv : i.playerInVehicle = false) (hped : s.pedExists = true)
    (hpe : i.playerExists = true)
    (hfar : DistSq i.playerPos s.pedPos > TELEPORT_DIST_SQ)
    (hcd : s.tickCount - s.lastTeleportTick ≥ TELEPORT_COOLDOWN_TICKS) :
    autoTeleportPhase i cmd s =
      ({ s with pedPos := teleportTarget i.playerPos,
                lastTeleportTick := s.tickCount, lastFollowTick := 0 },
       [Effect.teleportNearPlayer (6 / 5) (4 / 5) 0]) := by
  simp [autoTeleportPhase, teleportPedNearPlayer, pedPosRead,
    hstay, hsp, hv, hped, hpe, hfar, hcd]

/-- Auto-Recovery holds its fire while the cooldown has not elapsed. -/
lemma autoTeleportPhase_hold (i : TickInputs) (cmd : CompanionCommands) (s : LoopState)
    (hstay : cmd.requestStay = false) (hsp : s.st.spawned = true)
    (hv : i.playerInVehicle = false)
    (hcd : s.tickCount - s.lastTeleportTick < TELEPORT_COOLDOWN_TICKS) :
    autoTeleportPhase i cmd s = (s, []) := by
  have hncd : ¬(s.tickCount - s.lastTeleportTick ≥ TELEPORT_COOLDOWN_TICKS) :=
    Nat.not_le.mpr hcd
  simp [autoTeleportPhase, hstay, hsp, hv, hncd]

/-- The F7 toggle is inert when the key was not pressed. -/
lemma f7Phase_noop (i : TickInputs) (s : LoopState) (h : i.f7Pressed = false) :
    f7Phase i s = (s, []) := by
  simp [f7Phase, h]

/-- The decision-driven spawn consumer is inert without requests. -/
lemma coreSpawnPhase_noop (i : TickInputs) (cmd : CompanionCommands) (s : LoopState)
    (h1 : cmd.requestSpawn = false) (h2 : cmd.requestDespawn = false) :
    coreSpawnPhase i cmd s = (s, []) := by
  simp [coreSpawnPhase, h1, h2]

/-- Manual recall is inert when the key was not pressed. -/
lemma recallPhase_noop (i : TickInputs) (s : LoopState) (h : i.f5Pressed = false) :
    recallPhase i s = (s, []) := by
  simp [recallPhase, h]

/-- Manual recall is disabled while the mission flag is active
(main.cpp line 454). -/
lemma recallPhase_mission (i : TickInputs) (s : LoopState)
    (h : i.isMissionActive = true) :
    recallPhase i s = (s, []) := by
  simp [recallPhase, h]

/-- One full tick under the claim C4 scenario: the steady state is
preserved, the tick counter advances, and the auto-recovery teleport
fires exactly when the cooldown has elapsed, re-stamping the timer. -/
lemma c4_tick_step (i : TickInputs) (s : LoopState) (hI : c4Input i) (hS : c4Steady s) :
    c4Steady (tick i s).1
    ∧ (tick i s).1.tickCount = s.tickCount + 1
    ∧ (s.tickCount + 1 - s.lastTeleportTick ≥ TELEPORT_COOLDOWN_TICKS →
        traceTeleports (tick i s).2 = 1
        ∧ (tick i s).1.lastTeleportTick = s.tickCount + 1
        ∧ (tick i s).1.lastFollowTick = 0)
    ∧ (s.tickCount + 1 - s.lastTeleportTick < TELEPORT_COOLDOWN_TICKS →
        traceTeleports (tick i s).2 = 0
        ∧ (tick i s).1.lastTeleportTick = s.lastTeleportTick) := by
  obtain ⟨hm, h5, h6, h7, hpe, hpd, hpv, hped, hfar⟩ := hI
  obtain ⟨hwm, hst, hsa, hir, hwv⟩ := hS
  have hm2 : i.isMissionActive = s.wasMissionActive := by rw [hm, hwm]
  by_cases hcd : s.tickCount + 1 - s.lastTeleportTick ≥ TELEPORT_COOLDOWN_TICKS
  · have hcd2 : s.tickCount + 1 - s.lastTeleportTick ≥ TELEPORT_COOLDOWN_TICKS := hcd
    by_cases hfol : s.tickCount + 1 - s.lastFollowTick >
        (if (60 : ℕ) > 0 then (60 : ℕ) else FOLLOW_REFRESH_TICKS)
    · simp only [tick, execPhase, missionGatePhase_noedge i s hm2, hm, h5, h6, h7,
        hpe, hpd, hpv, hped, hst, hsa, hir, hwv, hfar, hfol, hcd, hcd2,
        Bool.false_eq_true, if_false, if_true, buildCtx,
        coreTick_requestStay, coreTick_requestFollow, coreTick_requestSpawn,
        coreTick_requestDespawn, coreTick_followDistance, coreTick_followSpeed,
        coreTick_followRefreshTicks,
        vehicleRidePhase_noop, stayPhase_noop, f7Phase_noop, coreSpawnPhase_noop,
        recallPhase_noop, followPhase_fire, followPhase_skip,
        autoTeleportPhase_fire, autoTeleportPhase_hold,
        Bool.and_self, Bool.and_true, Bool.true_and, Bool.and_false, Bool.false_and,
        Bool.not_true, Bool.not_false]
      exact ⟨by simp [c4Steady], trivial,
        fun _ => ⟨rfl, trivial, trivial⟩,
        fun hlt => absurd hcd (Nat.not_le.mpr hlt)⟩
    · have hfol2 : s.tickCount + 1 - s.lastFollowTick ≤
          (if (60 : ℕ) > 0 then (60 : ℕ) else FOLLOW_REFRESH_TICKS) := Nat.not_lt.mp hfol
      simp only [tick, execPhase, missionGatePhase_noedge i s hm2, hm, h5, h6, h7,
        hpe, hpd, hpv, hped, hst, hsa, hir, hwv, hfar, hfol, hfol2, hcd, hcd2,
        Bool.false_eq_true, if_false, if_true, buildCtx,
        coreTick_requestStay, coreTick_requestFollow, coreTick_requestSpawn,
        coreTick_requestDespawn, coreTick_followDistance, coreTick_followSpeed,
        coreTick_followRefreshTicks,
        vehicleRidePhase_noop, stayPhase_noop, f7Phase_noop, coreSpawnPhase_noop,
        recallPhase_noop, followPhase_fire, followPhase_skip,
        autoTeleportPhase_fire, autoTeleportPhase_hold,
        Bool.and_self, Bool.and_true, Bool.true_and, Bool.and_false, Bool.false_and,
        Bool.not_true, Bool.not_false]
      exact ⟨by simp [c4Steady], trivial,
        fun _ => ⟨rfl, trivial, trivial⟩,
        fun hlt => absurd hcd (Nat.not_le.mpr hlt)⟩
  · have hcd2 : s.tickCount + 1 - s.lastTeleportTick < TELEPORT_COOLDOWN_TICKS :=
      Nat.not_le.mp hcd
    by_cases hfol : s.tickCount + 1 - s.lastFollowTick >
        (if (60 : ℕ) > 0 then (60 : ℕ) else FOLLOW_REFRESH_TICKS)
    · simp only [tick, execPhase, missionGatePhase_noedge i s hm2, hm, h5, h6, h7,
        hpe, hpd, hpv, hped, hst, hsa, hir, hwv, hfar, hfol, hcd, hcd2,
        Bool.false_eq_true, if_false, if_true, buildCtx,
        coreTick_requestStay, coreTick_requestFollow, coreTick_requestSpawn,
        coreTick_requestDespawn, coreTick_followDistance, coreTick_followSpeed,
        coreTick_followRefreshTicks,
        vehicleRidePhase_noop, stayPhase_noop, f7Phase_noop, coreSpawnPhase_noop,
        recallPhase_noop, followPhase_fire, followPhase_skip,
        autoTeleportPhase_fire, autoTeleportPhase_hold,
        Bool.and_self, Bool.and_true, Bool.true_and, Bool.and_false, Bool.false_and,
        Bool.not_true, Bool.not_false]
      exact ⟨by simp [c4Steady], trivial, fun h => h.elim, fun _ => ⟨rfl, trivial⟩⟩
    · have hfol2 : s.tickCount + 1 - s.lastFollowTick ≤
          (if (60 : ℕ) > 0 then (60 : ℕ) else FOLLOW_REFRESH_TICKS) := Nat.not_lt.mp hfol
      simp only [tick, execPhase, missionGatePhase_noedge i s hm2, hm, h5, h6, h7,
        hpe, hpd, hpv, hped, hst, hsa, hir, hwv, hfar, hfol, hfol2, hcd, hcd2,
        Bool.false_eq_true, if_false, if_true, buildCtx,
        coreTick_requestStay, coreTick_requestFollow, coreTick_requestSpawn,
        coreTick_requestDespawn, coreTick_followDistance, coreTick_followSpeed,
        coreTick_followRefreshTicks,
        vehicleRidePhase_noop, stayPhase_noop, f7Phase_noop, coreSpawnPhase_noop,
        recallPhase_noop, followPhase_fire, followPhase_skip,
        autoTeleportPhase_fire, autoTeleportPhase_hold,
        Bool.and_self, Bool.and_true, Bool.true_and, Bool.and_false, Bool.false_and,
        Bool.not_true, Bool.not_false]
      exact ⟨by simp [c4Steady], trivial, fun h => h.elim, fun _ => ⟨rfl, trivial⟩⟩

/-- Within the cooldown window, across whole ticks of the claim C4
scenario, no auto-teleport fires and the stamp is preserved. -/
lemma c4_window (L : List TickInputs) (s : LoopState)
    (hL : ∀ i ∈ L, c4Input i) (hS : c4Steady s)
    (hbound : s.tickCount + L.length < s.lastTeleportTick + TELEPORT_COOLDOWN_TICKS) :
    ((runTicks L s).2.map traceTeleports).sum = 0
    ∧ (runTicks L s).1.lastTeleportTick = s.lastTeleportTick
    ∧ (runTicks L s).1.tickCount = s.tickCount + L.length
    ∧ c4Steady (runTicks L s).1 := by
  induction L generalizing s with
  | nil =>
    exact ⟨by simp [runTicks], by simp [runTicks], by simp [runTicks],
      by simpa [runTicks] using hS⟩
  | cons a L ih =>
    have ha : c4Input a := hL a (List.mem_cons_self a L)
    obtain ⟨hS2, htc, hfire, hhold⟩ := c4_tick_step a s ha hS
    simp only [List.length_cons] at hbound
    have hC : TELEPORT_COOLDOWN_TICKS = 300 := rfl
    have hlt : s.tickCount + 1 - s.lastTeleportTick < TELEPORT_COOLDOWN_TICKS := by
      omega
    obtain ⟨hcnt, hstamp⟩ := hhold hlt
    have hbound2 : (tick a s).1.tickCount + L.length
        < (tick a s).1.lastTeleportTick + TELEPORT_COOLDOWN_TICKS := by
      rw [htc, hstamp]
      omega
    obtain ⟨ih1, ih2, ih3, ih4⟩ :=
      ih (tick a s).1 (fun j hj => hL j (List.mem_cons_of_mem a hj)) hS2 hbound2
    refine ⟨?_, ?_, ?_, ?_⟩
    · simp [runTicks, hcnt, ih1]
    · simp [runTicks, ih2, hstamp]
    · have hr : (runTicks (a :: L) s).1 = (runTicks L (tick a s).1).1 := by
        simp [runTicks]
      rw [List.length_cons, hr, ih3, htc]
      omega
    · simpa [runTicks] using ih4

/-- Claim C4: on every tick with the auto-recovery gate open (no stay
request, companion spawned, player on foot) the companion is teleported
near the player exactly when the squared player-companion distance
exceeds 50 squared and at least 300 ticks have elapsed since the last
auto-teleport; the teleport stamps the cooldown to the current tick and
resets the follow cooldown to 0; a tick with the gate closed resets the
teleport cooldown to 0; and under continuously excessive distance at
most one teleport occurs per 300-tick window, with exactly one fired
once the window has elapsed. -/
theorem C4_auto_recovery :
    (∀ (i : TickInputs) (cmd : CompanionCommands) (s : LoopState),
      (cmd.requestStay = false → s.st.spawned = true → i.playerInVehicle = false →
        (((autoTeleportPhase i cmd s).2 = [Effect.teleportNearPlayer (6 / 5) (4 / 5) 0])
           ↔ (DistSq i.playerPos (pedPosRead s) > TELEPORT_DIST_SQ
              ∧ s.tickCount - s.lastTeleportTick ≥ TELEPORT_COOLDOWN_TICKS))
        ∧ (DistSq i.playerPos (pedPosRead s) > TELEPORT_DIST_SQ →
             s.tickCount - s.lastTeleportTick ≥ TELEPORT_COOLDOWN_TICKS →
             (autoTeleportPhase i cmd s).1.lastTeleportTick = s.tickCount
             ∧ (autoTeleportPhase i cmd s).1.lastFollowTick = 0))
      ∧ (¬(cmd.requestStay = false ∧ s.st.spawned = true ∧ i.playerInVehicle = false) →
          (autoTeleportPhase i cmd s).1.lastTeleportTick = 0
          ∧ (autoTeleportPhase i cmd s).2 = []))
    ∧ (∀ (L : List TickInputs) (s : LoopState),
        (∀ i ∈ L, c4Input i) → c4Steady s →
        s.tickCount + L.length < s.lastTeleportTick + TELEPORT_COOLDOWN_TICKS →
        ((runTicks L s).2.map traceTeleports).sum = 0
        ∧ (runTicks L s).1.lastTeleportTick = s.lastTeleportTick)
    ∧ (∀ (i : TickInputs) (s : LoopState),
        c4Input i → c4Steady s →
        s.lastTeleportTick + TELEPORT_COOLDOWN_TICKS ≤ s.tickCount + 1 →
        traceTeleports (tick i s).2 = 1
        ∧ (tick i s).1.lastTeleportTick = s.tickCount + 1
        ∧ (tick i s).1.lastFollowTick = 0) := by
  refine ⟨?_, ?_, ?_⟩
  · intro i cmd s
    exact ⟨fun h1 h2 h3 => ⟨((autoTeleportPhase_spec i cmd s).1 h1 h2 h3).1,
        fun hf hc => ((autoTeleportPhase_spec i cmd s).1 h1 h2 h3).2.1 hf hc⟩,
      (autoTeleportPhase_spec i cmd s).2⟩
  · intro L s hL hS hb
    exact ⟨(c4_window L s hL hS hb).1, (c4_window L s hL hS hb).2.1⟩
  · intro i s hI hS hge
    exact (c4_tick_step i s hI hS).2.2.1 (by omega)

/-- Concrete far-player input for the claim C4 witness. -/
def c4WitnessIn : TickInputs :=
  { playerExists := true, pedExistsNow := true, playerPos := ⟨100, 0, 0⟩ }

/-- Claim C4 witness: cooldown long elapsed, distance far, one teleport
fires and both timers are updated. -/
theorem C4_auto_recovery_witness :
    traceTeleports (tick c4WitnessIn { tickCount := 400 }).2 = 1
    ∧ (tick c4WitnessIn { tickCount := 400 }).1.lastTeleportTick = 401
    ∧ (tick c4WitnessIn { tickCount := 400 }).1.lastFollowTick = 0 :=
  C4_auto_recovery.2.2 c4WitnessIn { tickCount := 400 }
    ⟨rfl, rfl, rfl, rfl, rfl, rfl, rfl, rfl,
      by norm_num [DistSq, TELEPORT_DIST_SQ, TELEPORT_DIST_METERS, c4WitnessIn]⟩
    ⟨rfl, rfl, rfl, rfl, rfl⟩ (by norm_num [TELEPORT_COOLDOWN_TICKS])

/-- First tick of the claim C7 run: F7 spawns the companion. -/
def c7i1 : TickInputs := { playerExists := true, f7Pressed := true, spawnOkF7 := true }

/-- Second tick of the claim C7 run: the player occupies vehicle 5 while
the companion (on foot, then warped) would report vehicle handle 7 as its
own; the front passenger seat is free. -/
def c7i2 : TickInputs :=
  { playerExists := true, pedExistsNow := true, playerInVehicle := true,
    playerVehicleHandle := 5, pedVehicleHandle := 7, seat0Free := true,
    putPedOk := true }

/-- Claim C7 counterexample: the coordinator does not query the
companion's current vehicle handle; the seat probe and the latched handle
come from EngineAdapter::GetPlayerVehicleHandle (main.cpp line 239), so
with the player in vehicle 5 the mount latches 5 even though the
companion's own vehicle-handle sensor reads 7. -/
theorem C7_counterexample :
    c7i2.pedVehicleHandle ≠ c7i2.playerVehicleHandle
    ∧ (runTicks [c7i1, c7i2] initialState).1.isRiding = true
    ∧ (runTicks [c7i1, c7i2] initialState).1.ridingVehicleHandle
        = c7i2.playerVehicleHandle
    ∧ (runTicks [c7i1, c7i2] initialState).1.ridingVehicleHandle
        ≠ c7i2.pedVehicleHandle := by
  decide

/-- Claim C7 amended: on every tick on which the player occupies a
vehicle, the companion is spawned and there is no stay request, the
coordinator queries the player's current vehicle handle, and when it is
nonzero and either no vehicle is latched or it differs from the latched
handle, it tries seats in the strict order front passenger (0),
rear-left (1), rear-right (2), taking the first free one; on a successful
mount it sets riding true with that (player) vehicle handle and stamps
the follow cooldown to the current tick, suppressing follow re-issue that
tick; when no seat is free it leaves riding false with handle 0. -/
theorem C7_vehicle_mount (i : TickInputs) (cmd : CompanionCommands) (s : LoopState)
    (hv : i.playerInVehicle = true) (hsp : s.st.spawned = true)
    (hstay : cmd.requestStay = false) (hveh : i.playerVehicleHandle ≠ 0)
    (hlatch : s.isRiding = false ∨ i.playerVehicleHandle ≠ s.ridingVehicleHandle) :
    (i.seat0Free = true →
        (vehicleRidePhase i cmd s).2 = [Effect.putIntoVehicle i.playerVehicleHandle 0])
    ∧ (i.seat0Free = false → i.seat1Free = true →
        (vehicleRidePhase i cmd s).2 = [Effect.putIntoVehicle i.playerVehicleHandle 1])
    ∧ (i.seat0Free = false → i.seat1Free = false → i.seat2Free = true →
        (vehicleRidePhase i cmd s).2 = [Effect.putIntoVehicle i.playerVehicleHandle 2])
    ∧ (i.putPedOk = true →
        (i.seat0Free = true ∨ i.seat1Free = true ∨ i.seat2Free = true) →
          (vehicleRidePhase i cmd s).1.isRiding = true
          ∧ (vehicleRidePhase i cmd s).1.ridingVehicleHandle = i.playerVehicleHandle
          ∧ (vehicleRidePhase i cmd s).1.lastFollowTick = s.tickCount
          ∧ (followPhase i cmd (vehicleRidePhase i cmd s).1).2 = [])
    ∧ (i.seat0Free = false → i.seat1Free = false → i.seat2Free = false →
          (vehicleRidePhase i cmd s).1.isRiding = false
          ∧ (vehicleRidePhase i cmd s).1.ridingVehicleHandle = 0
          ∧ (vehicleRidePhase i cmd s).2 = []) := by
  have hc : (i.playerVehicleHandle != 0
      && (!s.isRiding || i.playerVehicleHandle != s.ridingVehicleHandle)) = true := by
    rcases hlatch with h | h <;> simp [h, hveh]
  have hs0 : ((0 : ℤ) != -999) = true := by decide
  have hs1 : ((1 : ℤ) != -999) = true := by decide
  have hs2 : ((2 : ℤ) != -999) = true := by decide
  refine ⟨?_, ?_, ?_, ?_, ?_⟩
  · intro h0
    simp only [vehicleRidePhase, vehicleReleaseStep, vehicleExitStep, vehicleMountStep, hv, hsp, hstay, hc, h0, Bool.and_self, Bool.and_true,
      Bool.true_and, Bool.and_false, Bool.false_and, Bool.not_true, Bool.not_false,
      Bool.false_eq_true, if_false, if_true, hs0]
    split_ifs <;> simp
  · intro h0 h1
    simp only [vehicleRidePhase, vehicleReleaseStep, vehicleExitStep, vehicleMountStep, hv, hsp, hstay, hc, h0, h1, Bool.and_self, Bool.and_true,
      Bool.true_and, Bool.and_false, Bool.false_and, Bool.not_true, Bool.not_false,
      Bool.false_eq_true, if_false, if_true, hs1]
    split_ifs <;> simp
  · intro h0 h1 h2
    simp only [vehicleRidePhase, vehicleReleaseStep, vehicleExitStep, vehicleMountStep, hv, hsp, hstay, hc, h0, h1, h2, Bool.and_self,
      Bool.and_true, Bool.true_and, Bool.and_false, Bool.false_and, Bool.not_true,
      Bool.not_false, Bool.false_eq_true, if_false, if_true, hs2]
    split_ifs <;> simp
  · intro hput hseat
    rcases h0 : i.seat0Free <;> rcases h1 : i.seat1Free <;> rcases h2 : i.seat2Free <;>
      simp_all [vehicleRidePhase, vehicleReleaseStep, vehicleExitStep, vehicleMountStep, followPhase, hv, hsp, hstay, hc, hput, hs0, hs1, hs2]
  · intro h0 h1 h2
    simp [vehicleRidePhase, vehicleReleaseStep, vehicleExitStep, vehicleMountStep, hv, hsp, hstay, hc, h0, h1, h2]

/-- Concrete input for the claim C7 witness: vehicle 9, only the
rear-left seat free. -/
def c7wIn : TickInputs :=
  { playerInVehicle := true, playerVehicleHandle := 9, seat1Free := true,
    putPedOk := true }

/-- Concrete state for the claim C7 witness. -/
def c7wState : LoopState := { tickCount := 7, st := { spawned := true } }

/-- Claim C7 witness: the mount seats the companion rear-left and latches
the player's vehicle handle. -/
theorem C7_vehicle_mount_witness :
    (vehicleRidePhase c7wIn { } c7wState).2 = [Effect.putIntoVehicle 9 1]
    ∧ (vehicleRidePhase c7wIn { } c7wState).1.isRiding = true := by
  have h := C7_vehicle_mount c7wIn { } c7wState rfl rfl rfl (by decide) (Or.inl rfl)
  exact ⟨h.2.1 rfl rfl, (h.2.2.2.1 rfl (Or.inr (Or.inl rfl))).1⟩

/-- First tick of the claim C6 run: F7 spawns the companion. -/
def c6i1 : TickInputs := { playerExists := true, f7Pressed := true, spawnOkF7 := true }

/-- Second tick of the claim C6 run: F6 turns stay on; hold-position
activates and stamps the resnap timer. -/
def c6i2 : TickInputs := { playerExists := true, f6Pressed := true, pedExistsNow := true }

/-- Third tick of the claim C6 run: the mission starts. -/
def c6i3 : TickInputs := { playerExists := true, isMissionActive := true, pedExistsNow := true }

/-- Fourth tick of the claim C6 run: the mission ends. -/
def c6i4 : TickInputs := { playerExists := true, spawnOkMission := true }

/-- Claim C6 counterexample: after the suppression-start edge the resnap
timer still holds its pre-mission stamp (2, not 0), and after the
suppression-end edge the saved stayEnabled value is still latched (true,
not cleared): the gate clears only the follow and teleport timers and
only the saved spawned flag (main.cpp lines 130-132 and 171-172). -/
theorem C6_counterexample :
    (missionGatePhase c6i3 (runTicks [c6i1, c6i2] initialState).1).1.lastStaySnapTick ≠ 0
    ∧ (missionGatePhase c6i4
        (runTicks [c6i1, c6i2, c6i3] initialState).1).1.stayToggleBeforeMission = true := by
  decide

/-- Claim C6 amended: on the suppression-start edge and again on the
suppression-end edge, the ride state and the follow and teleport cooldown
timers are cleared; the stay-resnap timer is left unchanged (it is
re-stamped on the next hold-position entry); and after the end-edge
restoration only the saved spawned value of the mission memory is
cleared, while the saved stayEnabled value is left unchanged until the
next start edge overwrites it. -/
theorem C6_gate_clears (i : TickInputs) (s : LoopState) :
    (i.isMissionActive = true → s.wasMissionActive = false →
       (missionGatePhase i s).1.isRiding = false
       ∧ (missionGatePhase i s).1.ridingVehicleHandle = 0
       ∧ (missionGatePhase i s).1.wasPlayerInVehicle = false
       ∧ (missionGatePhase i s).1.lastFollowTick = 0
       ∧ (missionGatePhase i s).1.lastTeleportTick = 0
       ∧ (missionGatePhase i s).1.isStayingActive = false
       ∧ (missionGatePhase i s).1.lastStaySnapTick = s.lastStaySnapTick
       ∧ (missionGatePhase i s).1.companionWasSpawnedBeforeMission = s.st.spawned
       ∧ (missionGatePhase i s).1.stayToggleBeforeMission = s.stayToggle)
    ∧ (i.isMissionActive = false → s.wasMissionActive = true →
       (missionGatePhase i s).1.isRiding = false
       ∧ (missionGatePhase i s).1.ridingVehicleHandle = 0
       ∧ (missionGatePhase i s).1.wasPlayerInVehicle = false
       ∧ (missionGatePhase i s).1.lastFollowTick = 0
       ∧ (missionGatePhase i s).1.lastTeleportTick = 0
       ∧ (missionGatePhase i s).1.lastStaySnapTick = s.lastStaySnapTick
       ∧ (missionGatePhase i s).1.companionWasSpawnedBeforeMission = false
       ∧ (missionGatePhase i s).1.stayToggleBeforeMission = s.stayToggleBeforeMission) := by
  constructor
  · intro hm hw
    rcases hsp : s.st.spawned <;> simp [missionGatePhase, hm, hw, hsp]
  · intro hm hw
    rcases hmem : s.companionWasSpawnedBeforeMission <;>
      rcases hok : i.spawnOkMission <;>
        simp [missionGatePhase, spawnTestPed, hm, hw, hmem, hok] <;>
        split_ifs <;> simp

/-- Concrete dirty state for the claim C6 witness. -/
def c6wState : LoopState := { lastStaySnapTick := 77, lastFollowTick := 5,
                              lastTeleportTick := 9, isRiding := true }

/-- Claim C6 witness: a start edge clears the follow timer but leaves
the resnap timer untouched. -/
theorem C6_gate_clears_witness :
    (missionGatePhase { isMissionActive := true } c6wState).1.lastFollowTick = 0
    ∧ (missionGatePhase { isMissionActive := true } c6wState).1.lastStaySnapTick = 77 := by
  have h := (C6_gate_clears { isMissionActive := true } c6wState).1 rfl rfl
  exact ⟨h.2.2.2.1, h.2.2.2.2.2.2.1⟩

/-- The Follow Executor only resets the timer when no follow is
requested. -/
lemma followPhase_nofollow (i : TickInputs) (cmd : CompanionCommands) (s : LoopState)
    (hf : cmd.requestFollow = false) :
    followPhase i cmd s = ({ s with lastFollowTick := 0 }, []) := by
  simp [followPhase, hf]

/-- Auto-Recovery only resets its timer when the companion is absent. -/
lemma autoTeleportPhase_unspawned (i : TickInputs) (cmd : CompanionCommands)
    (s : LoopState) (hsp : s.st.spawned = false) :
    autoTeleportPhase i cmd s = ({ s with lastTeleportTick := 0 }, []) := by
  simp [autoTeleportPhase, hsp]

/-- With no stay request and the companion absent, the Vehicle Ride
Coordinator issues no engine calls; on a player-exit edge it clears the
ride latch. -/
lemma vehicleRidePhase_unspawned_exit (i : TickInputs) (cmd : CompanionCommands)
    (s : LoopState) (hstay : cmd.requestStay = false) (hsp : s.st.spawned = false)
    (hx : (s.wasPlayerInVehicle && !i.playerInVehicle) = true) :
    vehicleRidePhase i cmd s =
      ({ s with isRiding := false, ridingVehicleHandle := 0,
                wasPlayerInVehicle := i.playerInVehicle,
                st := { s.st with ridingVehicle := false } }, []) := by
  simp [vehicleRidePhase, vehicleReleaseStep, vehicleExitStep, vehicleMountStep, hstay, hsp, hx]

/-- With no stay request, the companion absent and no player-exit edge,
the Vehicle Ride Coordinator only refreshes its previous-occupancy flag
and the riding mirror. -/
lemma vehicleRidePhase_unspawned_noexit (i : TickInputs) (cmd : CompanionCommands)
    (s : LoopState) (hstay : cmd.requestStay = false) (hsp : s.st.spawned = false)
    (hx : (s.wasPlayerInVehicle && !i.playerInVehicle) = false) :
    vehicleRidePhase i cmd s =
      ({ s with wasPlayerInVehicle := i.playerInVehicle,
                st := { s.st with ridingVehicle := s.isRiding } }, []) := by
  simp [vehicleRidePhase, vehicleReleaseStep, vehicleExitStep, vehicleMountStep, hstay, hsp, hx]

/-- The mission gate on a suppression-start edge, as one equation. -/
lemma missionGatePhase_start (i : TickInputs) (s : LoopState)
    (hm : i.isMissionActive = true) (hw : s.wasMissionActive = false) :
    missionGatePhase i s =
      (if s.st.spawned = true then
         ({ s with tickCount := s.tickCount + 1, pedPos := i.pedPosNow,
                   pedExists := false,
                   st := { s.st with spawned := false },
                   companionWasSpawnedBeforeMission := s.st.spawned,
                   stayToggleBeforeMission := s.stayToggle,
                   isRiding := false, ridingVehicleHandle := 0,
                   wasPlayerInVehicle := false,
                   lastFollowTick := 0, lastTeleportTick := 0,
                   isStayingActive := false,
                   wasMissionActive := true }, [Effect.despawnPed])
       else
         ({ s with tickCount := s.tickCount + 1, pedExists := i.pedExistsNow,
                   pedPos := i.pedPosNow,
                   companionWasSpawnedBeforeMission := s.st.spawned,
                   stayToggleBeforeMission := s.stayToggle,
                   isRiding := false, ridingVehicleHandle := 0,
                   wasPlayerInVehicle := false,
                   lastFollowTick := 0, lastTeleportTick := 0,
                   isStayingActive := false,
                   wasMissionActive := true }, [])) := by
  rcases hsp : s.st.spawned <;> simp [missionGatePhase, hm, hw, hsp]

/-- First tick of the claim C1 run: the mission starts (start edge). -/
def c1i1 : TickInputs := { isMissionActive := true, playerExists := true }

/-- Second tick of the claim C1 run: F7 is pressed during the mission and
the spawn succeeds (the lifecycle toggle is not gated on the mission). -/
def c1i2 : TickInputs :=
  { isMissionActive := true, playerExists := true, f7Pressed := true,
    spawnOkF7 := true }

/-- Third tick of the claim C1 run: still mid-mission, F6 turns stay on. -/
def c1i3 : TickInputs :=
  { isMissionActive := true, playerExists := true, f6Pressed := true,
    pedExistsNow := true }

/-- Claim C1 counterexample: on a tick with the mission flag active the
downstream executors are not skipped: after an F7 respawn during the
mission, the Hold-Position Executor runs and issues engine calls
(clear-tasks and freeze) on a mission-active tick. -/
theorem C1_counterexample :
    c1i3.isMissionActive = true
    ∧ (tick c1i3 (runTicks [c1i1, c1i2] initialState).1).2.execEffects ≠ [] := by
  decide

/-- Claim C1 amended: the gate suppresses behavior by despawning rather
than by skipping: on every mission-active tick on which the companion is
absent at the sensor read and hold-position is not latched (both hold
from the start edge on, unless a mid-mission F7 respawn intervenes), the
downstream executors issue no engine calls, and manual recall issues no
engine calls while the mission flag is active. -/
theorem C1_suppressed_executors (i : TickInputs) (s : LoopState)
    (hm : i.isMissionActive = true) (hped : i.pedExistsNow = false)
    (hsa : s.isStayingActive = false) :
    (tick i s).2.execEffects = [] ∧ (tick i s).2.recallEffects = [] := by
  rcases hw : s.wasMissionActive
  · rcases hx : (s.wasPlayerInVehicle && !i.playerInVehicle) <;>
      simp only [tick, execPhase, missionGatePhase_start i s hm hw,
        hm, hped, hsa, hx, buildCtx,
        coreTick_requestStay, coreTick_requestFollow,
        vehicleRidePhase_unspawned_exit, vehicleRidePhase_unspawned_noexit,
        stayPhase_noop, followPhase_nofollow, autoTeleportPhase_unspawned,
        recallPhase_mission,
        Bool.false_and, Bool.and_false, Bool.true_and, Bool.and_true,
        Bool.and_self, Bool.not_true, Bool.not_false, Bool.false_eq_true,
        if_false, if_true, List.append_nil, List.nil_append, and_self] <;>
      split_ifs <;>
      simp [vehicleRidePhase_unspawned_exit, vehicleRidePhase_unspawned_noexit,
        stayPhase_noop, followPhase_nofollow, autoTeleportPhase_unspawned,
        recallPhase_mission, coreTick_requestStay, coreTick_requestFollow,
        hm, hped, hsa, hx]
  · rcases hx : (s.wasPlayerInVehicle && !i.playerInVehicle) <;>
      simp only [tick, execPhase,
        missionGatePhase_noedge i s (by rw [hm, hw]),
        hm, hped, hsa, hx, buildCtx,
        coreTick_requestStay, coreTick_requestFollow,
        vehicleRidePhase_unspawned_exit, vehicleRidePhase_unspawned_noexit,
        stayPhase_noop, followPhase_nofollow, autoTeleportPhase_unspawned,
        recallPhase_mission,
        Bool.false_and, Bool.and_false, Bool.true_and, Bool.and_true,
        Bool.and_self, Bool.not_true, Bool.not_false, Bool.false_eq_true,
        if_false, if_true, List.append_nil, List.nil_append, and_self] <;>
      split_ifs <;>
      simp [vehicleRidePhase_unspawned_exit, vehicleRidePhase_unspawned_noexit,
        stayPhase_noop, followPhase_nofollow, autoTeleportPhase_unspawned,
        recallPhase_mission, coreTick_requestStay, coreTick_requestFollow,
        hm, hped, hsa, hx]

/-- Claim C1 witness: a mid-mission tick with the companion absent issues
no executor calls and no recall calls. -/
theorem C1_suppressed_executors_witness :
    (tick { isMissionActive := true, f5Pressed := true, playerExists := true }
        { wasMissionActive := true, tickCount := 10 }).2.execEffects = []
    ∧ (tick { isMissionActive := true, f5Pressed := true, playerExists := true }
        { wasMissionActive := true, tickCount := 10 }).2.recallEffects = [] :=
  C1_suppressed_executors
    { isMissionActive := true, f5Pressed := true, playerExists := true }
    { wasMissionActive := true, tickCount := 10 } rfl rfl rfl

/-- The release step never touches the mission gate state. -/
lemma vehicleReleaseStep_memory (i : TickInputs) (cmd : CompanionCommands) (s : LoopState) :
    (vehicleReleaseStep i cmd s).1.wasMissionActive = s.wasMissionActive
    ∧ (vehicleReleaseStep i cmd s).1.companionWasSpawnedBeforeMission
        = s.companionWasSpawnedBeforeMission
    ∧ (vehicleReleaseStep i cmd s).1.stayToggleBeforeMission = s.stayToggleBeforeMission := by
  unfold vehicleReleaseStep teleportPedNearPlayer
  split_ifs <;> simp

/-- The player-exit step never touches the mission gate state. -/
lemma vehicleExitStep_memory (i : TickInputs) (s : LoopState) :
    (vehicleExitStep i s).1.wasMissionActive = s.wasMissionActive
    ∧ (vehicleExitStep i s).1.companionWasSpawnedBeforeMission
        = s.companionWasSpawnedBeforeMission
    ∧ (vehicleExitStep i s).1.stayToggleBeforeMission = s.stayToggleBeforeMission := by
  unfold vehicleExitStep teleportPedNearPlayer
  dsimp only
  split_ifs <;> simp

/-- The mount step never touches the mission gate state. -/
lemma vehicleMountStep_memory (i : TickInputs) (cmd : CompanionCommands) (s : LoopState) :
    (vehicleMountStep i cmd s).1.wasMissionActive = s.wasMissionActive
    ∧ (vehicleMountStep i cmd s).1.companionWasSpawnedBeforeMission
        = s.companionWasSpawnedBeforeMission
    ∧ (vehicleMountStep i cmd s).1.stayToggleBeforeMission = s.stayToggleBeforeMission := by
  unfold vehicleMountStep
  dsimp only
  split_ifs <;> simp

/-- The Vehicle Ride Coordinator never touches the mission gate state. -/
lemma vehicleRidePhase_memory (i : TickInputs) (cmd : CompanionCommands) (s : LoopState) :
    (vehicleRidePhase i cmd s).1.wasMissionActive = s.wasMissionActive
    ∧ (vehicleRidePhase i cmd s).1.companionWasSpawnedBeforeMission
        = s.companionWasSpawnedBeforeMission
    ∧ (vehicleRidePhase i cmd s).1.stayToggleBeforeMission = s.stayToggleBeforeMission := by
  unfold vehicleRidePhase
  dsimp only
  simp only [vehicleMountStep_memory, vehicleExitStep_memory, vehicleReleaseStep_memory,
    and_self]

/-- The Hold-Position Executor never touches the mission gate state. -/
lemma stayPhase_memory (cmd : CompanionCommands) (s : LoopState) :
    (stayPhase cmd s).1.wasMissionActive = s.wasMissionActive
    ∧ (stayPhase cmd s).1.companionWasSpawnedBeforeMission
        = s.companionWasSpawnedBeforeMission
    ∧ (stayPhase cmd s).1.stayToggleBeforeMission = s.stayToggleBeforeMission := by
  unfold stayPhase pedPosRead
  dsimp only
  split_ifs <;> simp [STAY_SNAP_TICKS]

/-- The Follow Executor never touches the mission gate state. -/
lemma followPhase_memory (i : TickInputs) (cmd : CompanionCommands) (s : LoopState) :
    (followPhase i cmd s).1.wasMissionActive = s.wasMissionActive
    ∧ (followPhase i cmd s).1.companionWasSpawnedBeforeMission
        = s.companionWasSpawnedBeforeMission
    ∧ (followPhase i cmd s).1.stayToggleBeforeMission = s.stayToggleBeforeMission := by
  unfold followPhase
  dsimp only
  split_ifs <;> simp

/-- Auto-Recovery never touches the mission gate state. -/
lemma autoTeleportPhase_memory (i : TickInputs) (cmd : CompanionCommands) (s : LoopState) :
    (autoTeleportPhase i cmd s).1.wasMissionActive = s.wasMissionActive
    ∧ (autoTeleportPhase i cmd s).1.companionWasSpawnedBeforeMission
        = s.companionWasSpawnedBeforeMission
    ∧ (autoTeleportPhase i cmd s).1.stayToggleBeforeMission = s.stayToggleBeforeMission := by
  unfold autoTeleportPhase teleportPedNearPlayer pedPosRead
  dsimp only
  split_ifs <;> simp

/-- The F7 toggle never touches the mission gate state. -/
lemma f7Phase_memory (i : TickInputs) (s : LoopState) :
    (f7Phase i s).1.wasMissionActive = s.wasMissionActive
    ∧ (f7Phase i s).1.companionWasSpawnedBeforeMission
        = s.companionWasSpawnedBeforeMission
    ∧ (f7Phase i s).1.stayToggleBeforeMission = s.stayToggleBeforeMission := by
  unfold f7Phase spawnTestPed
  dsimp only
  split_ifs <;> simp

/-- The decision-driven spawn consumer never touches the mission gate
state. -/
lemma coreSpawnPhase_memory (i : TickInputs) (cmd : CompanionCommands) (s : LoopState) :
    (coreSpawnPhase i cmd s).1.wasMissionActive = s.wasMissionActive
    ∧ (coreSpawnPhase i cmd s).1.companionWasSpawnedBeforeMission
        = s.companionWasSpawnedBeforeMission
    ∧ (coreSpawnPhase i cmd s).1.stayToggleBeforeMission = s.stayToggleBeforeMission := by
  unfold coreSpawnPhase spawnTestPed
  dsimp only
  split_ifs <;> simp

/-- Manual recall never touches the mission gate state. -/
lemma recallPhase_memory (i : TickInputs) (s : LoopState) :
    (recallPhase i s).1.wasMissionActive = s.wasMissionActive
    ∧ (recallPhase i s).1.companionWasSpawnedBeforeMission
        = s.companionWasSpawnedBeforeMission
    ∧ (recallPhase i s).1.stayToggleBeforeMission = s.stayToggleBeforeMission := by
  unfold recallPhase teleportPedNearPlayer
  dsimp only
  split_ifs <;> simp

/-- On a mid-mission tick (flag active on both sides), the mission memory
and the previous-flag state are preserved by the whole tick. -/
lemma tick_memory_mission (i : TickInputs) (s : LoopState)
    (hm : i.isMissionActive = true) (hw : s.wasMissionActive = true) :
    (tick i s).1.wasMissionActive = true
    ∧ (tick i s).1.companionWasSpawnedBeforeMission
        = s.companionWasSpawnedBeforeMission
    ∧ (tick i s).1.stayToggleBeforeMission = s.stayToggleBeforeMission := by
  by_cases hf6 : i.f6Pressed = true <;>
    simp only [tick, execPhase, missionGatePhase_noedge i s (by rw [hm, hw]), hm, hf6,
      Bool.false_eq_true, if_false, if_true,
      recallPhase_memory, coreSpawnPhase_memory, f7Phase_memory,
      autoTeleportPhase_memory, followPhase_memory, stayPhase_memory,
      vehicleRidePhase_memory] <;>
    (try split_ifs) <;> simp

/-- On a suppression-start-edge tick, the memory captures the values from
just before the edge and the flag latches active, across the whole tick. -/
lemma tick_memory_start (i : TickInputs) (s : LoopState)
    (hm : i.isMissionActive = true) (hw : s.wasMissionActive = false) :
    (tick i s).1.wasMissionActive = true
    ∧ (tick i s).1.companionWasSpawnedBeforeMission = s.st.spawned
    ∧ (tick i s).1.stayToggleBeforeMission = s.stayToggle := by
  by_cases hf6 : i.f6Pressed = true <;>
    simp only [tick, execPhase, missionGatePhase_start i s hm hw, hm, hf6,
      Bool.false_eq_true, if_false, if_true,
      recallPhase_memory, coreSpawnPhase_memory, f7Phase_memory,
      autoTeleportPhase_memory, followPhase_memory, stayPhase_memory,
      vehicleRidePhase_memory] <;>
    (try split_ifs) <;> simp

/-- Across any run of mid-mission ticks the mission memory and the
previous-flag state are preserved. -/
lemma runTicks_memory_mission (L : List TickInputs) (s : LoopState)
    (hL : ∀ i ∈ L, i.isMissionActive = true) (hw : s.wasMissionActive = true) :
    (runTicks L s).1.wasMissionActive = true
    ∧ (runTicks L s).1.companionWasSpawnedBeforeMission
        = s.companionWasSpawnedBeforeMission
    ∧ (runTicks L s).1.stayToggleBeforeMission = s.stayToggleBeforeMission := by
  induction L generalizing s with
  | nil =>
    exact ⟨by simpa [runTicks] using hw, by simp [runTicks], by simp [runTicks]⟩
  | cons a L ih =>
    have ha := hL a (List.mem_cons_self a L)
    obtain ⟨m1, m2, m3⟩ := tick_memory_mission a s ha hw
    obtain ⟨i1, i2, i3⟩ :=
      ih (tick a s).1 (fun j hj => hL j (List.mem_cons_of_mem a hj)) m1
    exact ⟨by simp [runTicks, i1], by simp [runTicks, i2, m2],
      by simp [runTicks, i3, m3]⟩

/-- The mission gate on a suppression-end edge with a successful respawn:
the companion is spawned again, the stay toggle is restored from memory
and the follow cooldown is cleared. -/
lemma missionGatePhase_end_respawn (i : TickInputs) (s : LoopState)
    (hm : i.isMissionActive = false) (hw : s.wasMissionActive = true)
    (hmem : s.companionWasSpawnedBeforeMission = true)
    (hok : i.spawnOkMission = true) :
    (missionGatePhase i s).1.st.spawned = true
    ∧ (missionGatePhase i s).1.stayToggle = s.stayToggleBeforeMission
    ∧ (missionGatePhase i s).1.lastFollowTick = 0 := by
  simp only [missionGatePhase, spawnTestPed, hm, hw, hmem, hok, Bool.false_and,
    Bool.and_false, Bool.true_and, Bool.and_true, Bool.not_true, Bool.not_false,
    Bool.and_self, Bool.false_eq_true, if_false, if_true]
  split_ifs <;> simp_all

/-- Claim C5: for every run with the companion spawned and stay disabled
just before a suppression-start edge, after the matching suppression-end
edge (with the respawn attempt succeeding) the companion is spawned
again, the stay toggle is restored to off, and the follow cooldown timer
is 0, so follow re-issues on the next valid tick. -/
theorem C5_suppression_round_trip (s : LoopState) (L : List TickInputs)
    (iStart iEnd : TickInputs)
    (h1 : s.st.spawned = true) (h2 : s.stayToggle = false)
    (h3 : s.wasMissionActive = false)
    (h4 : iStart.isMissionActive = true)
    (h5 : ∀ i ∈ L, i.isMissionActive = true)
    (h6 : iEnd.isMissionActive = false) (h7 : iEnd.spawnOkMission = true) :
    (missionGatePhase iEnd (runTicks (iStart :: L) s).1).1.st.spawned = true
    ∧ (missionGatePhase iEnd (runTicks (iStart :: L) s).1).1.stayToggle = false
    ∧ (missionGatePhase iEnd (runTicks (iStart :: L) s).1).1.lastFollowTick = 0 := by
  obtain ⟨t1, t2, t3⟩ := tick_memory_start iStart s h4 h3
  have hrw : (runTicks (iStart :: L) s).1 = (runTicks L (tick iStart s).1).1 := by
    simp [runTicks]
  obtain ⟨m1, m2, m3⟩ := runTicks_memory_mission L (tick iStart s).1 h5 t1
  have hmem : (runTicks (iStart :: L) s).1.companionWasSpawnedBeforeMission = true := by
    rw [hrw, m2, t2, h1]
  have hwm : (runTicks (iStart :: L) s).1.wasMissionActive = true := by
    rw [hrw, m1]
  have hstb : (runTicks (iStart :: L) s).1.stayToggleBeforeMission = false := by
    rw [hrw, m3, t3, h2]
  obtain ⟨e1, e2, e3⟩ :=
    missionGatePhase_end_respawn iEnd (runTicks (iStart :: L) s).1 h6 hwm hmem h7
  exact ⟨e1, by rw [e2, hstb], e3⟩

/-- Concrete pre-suppression state for the claim C5 witness. -/
def c5wState : LoopState :=
  { st := { spawned := true }, pedExists := true, lastFollowTick := 33 }

/-- Claim C5 witness: a one-tick mission; after the end edge the
companion is spawned, stay is off and the follow timer is 0. -/
theorem C5_suppression_round_trip_witness :
    (missionGatePhase { spawnOkMission := true }
        (runTicks [{ isMissionActive := true }] c5wState).1).1.st.spawned = true
    ∧ (missionGatePhase { spawnOkMission := true }
        (runTicks [{ isMissionActive := true }] c5wState).1).1.stayToggle = false
    ∧ (missionGatePhase { spawnOkMission := true }
        (runTicks [{ isMissionActive := true }] c5wState).1).1.lastFollowTick = 0 :=
  C5_suppression_round_trip c5wState [] { isMissionActive := true }
    { spawnOkMission := true } rfl rfl rfl rfl
    (fun i hi => absurd hi (List.not_mem_nil i)) rfl rfl

/-- The Hold-Position Executor is active after its run exactly when stay
is requested for a spawned companion. -/
lemma stayPhase_staying (cmd : CompanionCommands) (s : LoopState) :
    (stayPhase cmd s).1.isStayingActive = (cmd.requestStay && s.st.spawned) := by
  unfold stayPhase pedPosRead
  dsimp only
  split_ifs <;> simp_all [STAY_SNAP_TICKS]

/-- The Hold-Position Executor never touches the riding latch. -/
lemma stayPhase_riding (cmd : CompanionCommands) (s : LoopState) :
    (stayPhase cmd s).1.isRiding = s.isRiding := by
  unfold stayPhase pedPosRead
  dsimp only
  split_ifs <;> simp_all [STAY_SNAP_TICKS]

/-- The Hold-Position Executor never issues the follow directive. -/
lemma stayPhase_no_taskFollow (cmd : CompanionCommands) (s : LoopState) :
    (stayPhase cmd s).2.any isTaskFollow = false := by
  unfold stayPhase pedPosRead
  dsimp only
  split_ifs <;> simp_all [STAY_SNAP_TICKS, isTaskFollow]

/-- The Follow Executor never touches the hold latch. -/
lemma followPhase_staying (i : TickInputs) (cmd : CompanionCommands) (s : LoopState) :
    (followPhase i cmd s).1.isStayingActive = s.isStayingActive := by
  unfold followPhase
  dsimp only
  split_ifs <;> simp

/-- The Follow Executor never touches the riding latch. -/
lemma followPhase_riding (i : TickInputs) (cmd : CompanionCommands) (s : LoopState) :
    (followPhase i cmd s).1.isRiding = s.isRiding := by
  unfold followPhase
  dsimp only
  split_ifs <;> simp

/-- A follow directive is only issued with no stay request and the ride
latch off. -/
lemma followPhase_fired (i : TickInputs) (cmd : CompanionCommands) (s : LoopState)
    (h : (followPhase i cmd s).2.any isTaskFollow = true) :
    cmd.requestStay = false ∧ s.isRiding = false := by
  revert h
  unfold followPhase
  dsimp only
  split_ifs <;> simp_all [isTaskFollow]

/-- Auto-Recovery never touches the hold latch. -/
lemma autoTeleportPhase_staying (i : TickInputs) (cmd : CompanionCommands)
    (s : LoopState) :
    (autoTeleportPhase i cmd s).1.isStayingActive = s.isStayingActive := by
  unfold autoTeleportPhase teleportPedNearPlayer pedPosRead
  dsimp only
  split_ifs <;> simp

/-- Auto-Recovery never touches the riding latch. -/
lemma autoTeleportPhase_riding (i : TickInputs) (cmd : CompanionCommands)
    (s : LoopState) :
    (autoTeleportPhase i cmd s).1.isRiding = s.isRiding := by
  unfold autoTeleportPhase teleportPedNearPlayer pedPosRead
  dsimp only
  split_ifs <;> simp

/-- Auto-Recovery never issues the follow directive. -/
lemma autoTeleportPhase_no_taskFollow (i : TickInputs) (cmd : CompanionCommands)
    (s : LoopState) :
    (autoTeleportPhase i cmd s).2.any isTaskFollow = false := by
  unfold autoTeleportPhase teleportPedNearPlayer pedPosRead
  dsimp only
  split_ifs <;> simp [isTaskFollow]

/-- The release step preserves the spawned mirror. -/
lemma vehicleReleaseStep_spawned (i : TickInputs) (cmd : CompanionCommands)
    (s : LoopState) :
    (vehicleReleaseStep i cmd s).1.st.spawned = s.st.spawned := by
  unfold vehicleReleaseStep teleportPedNearPlayer
  split_ifs <;> simp

/-- The exit step preserves the spawned mirror. -/
lemma vehicleExitStep_spawned (i : TickInputs) (s : LoopState) :
    (vehicleExitStep i s).1.st.spawned = s.st.spawned := by
  unfold vehicleExitStep teleportPedNearPlayer
  dsimp only
  split_ifs <;> simp

/-- The mount step preserves the spawned mirror. -/
lemma vehicleMountStep_spawned (i : TickInputs) (cmd : CompanionCommands)
    (s : LoopState) :
    (vehicleMountStep i cmd s).1.st.spawned = s.st.spawned := by
  unfold vehicleMountStep
  dsimp only
  split_ifs <;> simp

/-- The Vehicle Ride Coordinator preserves the spawned mirror. -/
lemma vehicleRidePhase_spawned (i : TickInputs) (cmd : CompanionCommands)
    (s : LoopState) :
    (vehicleRidePhase i cmd s).1.st.spawned = s.st.spawned := by
  unfold vehicleRidePhase
  dsimp only
  simp only [vehicleMountStep_spawned, vehicleExitStep_spawned, vehicleReleaseStep_spawned]

/-- The release step never issues the follow directive. -/
lemma vehicleReleaseStep_no_taskFollow (i : TickInputs) (cmd : CompanionCommands)
    (s : LoopState) :
    (vehicleReleaseStep i cmd s).2.any isTaskFollow = false := by
  unfold vehicleReleaseStep
  split_ifs <;> simp [isTaskFollow]

/-- The exit step never issues the follow directive. -/
lemma vehicleExitStep_no_taskFollow (i : TickInputs) (s : LoopState) :
    (vehicleExitStep i s).2.any isTaskFollow = false := by
  unfold vehicleExitStep
  dsimp only
  split_ifs <;> simp [isTaskFollow]

/-- The mount step never issues the follow directive. -/
lemma vehicleMountStep_no_taskFollow (i : TickInputs) (cmd : CompanionCommands)
    (s : LoopState) :
    (vehicleMountStep i cmd s).2.any isTaskFollow = false := by
  unfold vehicleMountStep
  dsimp only
  split_ifs <;> simp [isTaskFollow]

/-- The Vehicle Ride Coordinator never issues the follow directive. -/
lemma vehicleRidePhase_no_taskFollow (i : TickInputs) (cmd : CompanionCommands)
    (s : LoopState) :
    (vehicleRidePhase i cmd s).2.any isTaskFollow = false := by
  unfold vehicleRidePhase
  dsimp only
  simp only [List.any_append, vehicleReleaseStep_no_taskFollow,
    vehicleExitStep_no_taskFollow, vehicleMountStep_no_taskFollow,
    Bool.or_self, Bool.or_false, Bool.false_or]

/-- With a stay request for a spawned companion the Vehicle Ride
Coordinator always ends the tick with the riding latch off. -/
lemma vehicleRidePhase_stay_noride (i : TickInputs) (cmd : CompanionCommands)
    (s : LoopState) (hstay : cmd.requestStay = true) (hsp : s.st.spawned = true) :
    (vehicleRidePhase i cmd s).1.isRiding = false := by
  have hrel : (vehicleReleaseStep i cmd s).1.isRiding = false := by
    unfold vehicleReleaseStep teleportPedNearPlayer
    split_ifs <;> simp_all
  have hex : (vehicleExitStep i (vehicleReleaseStep i cmd s).1).1.isRiding = false := by
    unfold vehicleExitStep teleportPedNearPlayer
    dsimp only
    split_ifs <;> simp_all
  have hmnt : vehicleMountStep i cmd (vehicleExitStep i (vehicleReleaseStep i cmd s).1).1
      = ((vehicleExitStep i (vehicleReleaseStep i cmd s).1).1, []) := by
    unfold vehicleMountStep
    simp [hstay]
  unfold vehicleRidePhase
  dsimp only
  rw [hmnt]
  exact hex

/-- With no stay request the Hold-Position Executor leaves no follow
directive and the F7, spawn-consumer and recall phases keep the riding
latch. -/
lemma f7Phase_riding (i : TickInputs) (s : LoopState) :
    (f7Phase i s).1.isRiding = s.isRiding := by
  unfold f7Phase spawnTestPed
  dsimp only
  split_ifs <;> simp

/-- The F7 toggle never touches the hold latch. -/
lemma f7Phase_staying (i : TickInputs) (s : LoopState) :
    (f7Phase i s).1.isStayingActive = s.isStayingActive := by
  unfold f7Phase spawnTestPed
  dsimp only
  split_ifs <;> simp

/-- The decision-driven spawn consumer never touches the riding latch. -/
lemma coreSpawnPhase_riding (i : TickInputs) (cmd : CompanionCommands) (s : LoopState) :
    (coreSpawnPhase i cmd s).1.isRiding = s.isRiding := by
  unfold coreSpawnPhase spawnTestPed
  dsimp only
  split_ifs <;> simp

/-- The decision-driven spawn consumer never touches the hold latch. -/
lemma coreSpawnPhase_staying (i : TickInputs) (cmd : CompanionCommands) (s : LoopState) :
    (coreSpawnPhase i cmd s).1.isStayingActive = s.isStayingActive := by
  unfold coreSpawnPhase spawnTestPed
  dsimp only
  split_ifs <;> simp

/-- Manual recall never touches the riding latch. -/
lemma recallPhase_riding (i : TickInputs) (s : LoopState) :
    (recallPhase i s).1.isRiding = s.isRiding := by
  unfold recallPhase teleportPedNearPlayer
  dsimp only
  split_ifs <;> simp

/-- Manual recall can only clear the hold latch, never set it. -/
lemma recallPhase_staying_mono (i : TickInputs) (s : LoopState)
    (h : (recallPhase i s).1.isStayingActive = true) : s.isStayingActive = true := by
  revert h
  unfold recallPhase teleportPedNearPlayer
  dsimp only
  split_ifs <;> simp_all

/-- Pairwise exclusion at the level of the executor pipeline: hold
active, follow issued and riding exclude one another, provided a stay
request implies the spawned mirror (which the Mode Decision guarantees). -/
lemma execPhase_exclusion (i : TickInputs) (cmd : CompanionCommands) (s : LoopState)
    (hcore : cmd.requestStay = true → s.st.spawned = true) :
    ¬((execPhase i cmd s).1.isStayingActive = true
        ∧ (execPhase i cmd s).2.any isTaskFollow = true)
    ∧ ¬((execPhase i cmd s).1.isStayingActive = true
        ∧ (execPhase i cmd s).1.isRiding = true)
    ∧ ¬((execPhase i cmd s).2.any isTaskFollow = true
        ∧ (execPhase i cmd s).1.isRiding = true) := by
  unfold execPhase
  dsimp only
  simp only [List.any_append, vehicleRidePhase_no_taskFollow, stayPhase_no_taskFollow,
    autoTeleportPhase_no_taskFollow, Bool.false_or, Bool.or_false,
    autoTeleportPhase_staying, autoTeleportPhase_riding,
    followPhase_staying, followPhase_riding, stayPhase_staying, stayPhase_riding,
    vehicleRidePhase_spawned]
  rcases hrs : cmd.requestStay
  · simp only [hrs, Bool.false_and]
    refine ⟨?_, ?_, ?_⟩
    · rintro ⟨h1, h2⟩
      exact absurd h1 (by simp)
    · rintro ⟨h1, h2⟩
      exact absurd h1 (by simp)
    · rintro ⟨h1, h2⟩
      obtain ⟨hf1, hf2⟩ := followPhase_fired _ _ _ h1
      rw [stayPhase_riding] at hf2
      rw [hf2] at h2
      exact absurd h2 (by simp)
  · have hsp := hcore hrs
    have hride := vehicleRidePhase_stay_noride i cmd s hrs hsp
    refine ⟨?_, ?_, ?_⟩
    · rintro ⟨h1, h2⟩
      obtain ⟨hf1, hf2⟩ := followPhase_fired _ _ _ h2
      rw [hrs] at hf1
      exact absurd hf1 (by simp)
    · rintro ⟨h1, h2⟩
      rw [hride] at h2
      exact absurd h2 (by simp)
    · rintro ⟨h1, h2⟩
      obtain ⟨hf1, hf2⟩ := followPhase_fired _ _ _ h1
      rw [hrs] at hf1
      exact absurd hf1 (by simp)

/-- Decomposition of a tick around its executor pipeline: the command
batch satisfies the stay-implies-spawned guarantee, the executor effects
of the trace are the pipeline's, the riding latch passes through the
later phases unchanged, and the hold latch can only be cleared by them. -/
lemma tick_exec (i : TickInputs) (s : LoopState) :
    ∃ (cmd : CompanionCommands) (s2 : LoopState),
      (cmd.requestStay = true → s2.st.spawned = true)
      ∧ (tick i s).2.execEffects = (execPhase i cmd s2).2
      ∧ (tick i s).1.isRiding = (execPhase i cmd s2).1.isRiding
      ∧ ((tick i s).1.isStayingActive = true →
          (execPhase i cmd s2).1.isStayingActive = true) := by
  refine ⟨_, _, ?_, rfl, ?_, ?_⟩
  · simp only [coreTick_requestStay, Bool.and_eq_true]
    intro h
    exact h.1.1.1
  · simp only [tick, recallPhase_riding, coreSpawnPhase_riding, f7Phase_riding]
  · intro h
    simp only [tick] at h
    have h2 := recallPhase_staying_mono _ _ h
    simpa only [coreSpawnPhase_staying, f7Phase_staying] using h2

/-- Claim C9: at the end of every tick, at most one of hold-position
active, follow directive re-issued this tick, and riding is true. -/
theorem C9_mutual_exclusion (i : TickInputs) (s : LoopState) :
    ¬((tick i s).1.isStayingActive = true ∧ followReissued (tick i s).2 = true)
    ∧ ¬((tick i s).1.isStayingActive = true ∧ (tick i s).1.isRiding = true)
    ∧ ¬(followReissued (tick i s).2 = true ∧ (tick i s).1.isRiding = true) := by
  obtain ⟨cmd, s2, hcore, heff, hrid, hstay⟩ := tick_exec i s
  obtain ⟨x1, x2, x3⟩ := execPhase_exclusion i cmd s2 hcore
  refine ⟨?_, ?_, ?_⟩
  · rintro ⟨h1, h2⟩
    rw [followReissued, heff] at h2
    exact x1 ⟨hstay h1, h2⟩
  · rintro ⟨h1, h2⟩
    rw [hrid] at h2
    exact x2 ⟨hstay h1, h2⟩
  · rintro ⟨h1, h2⟩
    rw [followReissued, heff] at h1
    rw [hrid] at h2
    exact x3 ⟨h1, h2⟩

/-- The same loop state with the mode field replaced. -/
def setMode (s : LoopState) (m : CompanionMode) : LoopState :=
  { s with st := { s.st with mode := m } }

lemma setMode_stayToggle_proj (s : LoopState) (m : CompanionMode) :
    (setMode s m).stayToggle = s.stayToggle := rfl

lemma setMode_pedExists_proj (s : LoopState) (m : CompanionMode) :
    (setMode s m).pedExists = s.pedExists := rfl

lemma setMode_isRiding_proj (s : LoopState) (m : CompanionMode) :
    (setMode s m).isRiding = s.isRiding := rfl

lemma setMode_upd_stayToggle (s : LoopState) (m : CompanionMode) (b : Bool) :
    ({ setMode s m with stayToggle := b })
      = setMode { s with stayToggle := b } m := rfl

lemma setMode_upd_lastFollowTick (s : LoopState) (m : CompanionMode) (n : ℕ) :
    ({ setMode s m with lastFollowTick := n })
      = setMode { s with lastFollowTick := n } m := rfl

lemma setMode_upd_frameCount (s : LoopState) (m : CompanionMode) (n : ℕ) :
    ({ setMode s m with frameCount := n })
      = setMode { s with frameCount := n } m := rfl

lemma setMode_upd_mirror (s : LoopState) (m : CompanionMode) (p q : Bool) :
    ({ setMode s m with st := { (setMode s m).st with spawned := p, stayEnabled := q } })
      = setMode { s with st := { s.st with spawned := p, stayEnabled := q } } m := rfl

lemma setMode_upd_vehicleFinal (s : LoopState) (m : CompanionMode) (b r : Bool) :
    ({ setMode s m with wasPlayerInVehicle := b,
                        st := { (setMode s m).st with ridingVehicle := r } })
      = setMode { s with wasPlayerInVehicle := b,
                         st := { s.st with ridingVehicle := r } } m := rfl

lemma setMode_frameCount_proj (s : LoopState) (m : CompanionMode) :
    (setMode s m).frameCount = s.frameCount := rfl

/-- The context build ignores the mode field. -/
lemma buildCtx_setMode (i : TickInputs) (s : LoopState) (m : CompanionMode) :
    buildCtx i (setMode s m) = buildCtx i s := rfl

/-- The Mode Decision never reads the mode field. -/
lemma coreTick_setMode (ctx : CompanionContext) (s : LoopState) (m : CompanionMode) :
    CompanionCore.Tick ctx (setMode s m).st = CompanionCore.Tick ctx s.st := by
  unfold CompanionCore.Tick setMode
  dsimp only

/-- The mission gate never reads the mode field. -/
lemma missionGatePhase_setMode (i : TickInputs) (s : LoopState) (m : CompanionMode) :
    missionGatePhase i (setMode s m)
      = (setMode (missionGatePhase i s).1 m, (missionGatePhase i s).2) := by
  rcases hm : i.isMissionActive <;> rcases hw : s.wasMissionActive <;>
    rcases hsp : s.st.spawned <;> rcases hmem : s.companionWasSpawnedBeforeMission <;>
    rcases hok : i.spawnOkMission <;> rcases hpe : i.pedExistsNow <;>
    simp [missionGatePhase, spawnTestPed, setMode, hm, hw, hsp, hmem, hok, hpe]

/-- The release step never reads the mode field. -/
lemma vehicleReleaseStep_setMode (i : TickInputs) (cmd : CompanionCommands)
    (s : LoopState) (m : CompanionMode) :
    vehicleReleaseStep i cmd (setMode s m)
      = (setMode (vehicleReleaseStep i cmd s).1 m, (vehicleReleaseStep i cmd s).2) := by
  unfold vehicleReleaseStep teleportPedNearPlayer setMode
  dsimp only
  split_ifs <;> rfl

/-- The exit step never reads the mode field. -/
lemma vehicleExitStep_setMode (i : TickInputs) (s : LoopState) (m : CompanionMode) :
    vehicleExitStep i (setMode s m)
      = (setMode (vehicleExitStep i s).1 m, (vehicleExitStep i s).2) := by
  unfold vehicleExitStep teleportPedNearPlayer setMode
  dsimp only
  split_ifs <;> rfl

/-- The mount step never reads the mode field. -/
lemma vehicleMountStep_setMode (i : TickInputs) (cmd : CompanionCommands)
    (s : LoopState) (m : CompanionMode) :
    vehicleMountStep i cmd (setMode s m)
      = (setMode (vehicleMountStep i cmd s).1 m, (vehicleMountStep i cmd s).2) := by
  unfold vehicleMountStep setMode
  dsimp only
  split_ifs <;> rfl

/-- The Vehicle Ride Coordinator never reads the mode field. -/
lemma vehicleRidePhase_setMode (i : TickInputs) (cmd : CompanionCommands)
    (s : LoopState) (m : CompanionMode) :
    vehicleRidePhase i cmd (setMode s m)
      = (setMode (vehicleRidePhase i cmd s).1 m, (vehicleRidePhase i cmd s).2) := by
  unfold vehicleRidePhase
  dsimp only
  simp only [vehicleReleaseStep_setMode, vehicleExitStep_setMode, vehicleMountStep_setMode]
  simp only [setMode_upd_vehicleFinal]
  simp only [setMode_isRiding_proj]

/-- The Hold-Position Executor never reads the mode field. -/
lemma stayPhase_setMode (cmd : CompanionCommands) (s : LoopState) (m : CompanionMode) :
    stayPhase cmd (setMode s m)
      = (setMode (stayPhase cmd s).1 m, (stayPhase cmd s).2) := by
  rcases hq : cmd.requestStay <;> rcases hsp : s.st.spawned <;>
    rcases ha : s.isStayingActive <;> rcases hpe : s.pedExists <;>
    simp [stayPhase, pedPosRead, setMode, STAY_SNAP_TICKS, hq, hsp, ha, hpe] <;>
    (try (split_ifs <;> simp_all))

/-- The Follow Executor never reads the mode field. -/
lemma followPhase_setMode (i : TickInputs) (cmd : CompanionCommands) (s : LoopState)
    (m : CompanionMode) :
    followPhase i cmd (setMode s m)
      = (setMode (followPhase i cmd s).1 m, (followPhase i cmd s).2) := by
  unfold followPhase setMode
  dsimp only
  split_ifs <;> rfl

/-- Auto-Recovery never reads the mode field. -/
lemma autoTeleportPhase_setMode (i : TickInputs) (cmd : CompanionCommands)
    (s : LoopState) (m : CompanionMode) :
    autoTeleportPhase i cmd (setMode s m)
      = (setMode (autoTeleportPhase i cmd s).1 m, (autoTeleportPhase i cmd s).2) := by
  unfold autoTeleportPhase teleportPedNearPlayer pedPosRead setMode
  dsimp only
  split_ifs <;> rfl

/-- The F7 toggle never reads the mode field. -/
lemma f7Phase_setMode (i : TickInputs) (s : LoopState) (m : CompanionMode) :
    f7Phase i (setMode s m) = (setMode (f7Phase i s).1 m, (f7Phase i s).2) := by
  unfold f7Phase spawnTestPed setMode
  dsimp only
  split_ifs <;> rfl

/-- The decision-driven spawn consumer never reads the mode field. -/
lemma coreSpawnPhase_setMode (i : TickInputs) (cmd : CompanionCommands) (s : LoopState)
    (m : CompanionMode) :
    coreSpawnPhase i cmd (setMode s m)
      = (setMode (coreSpawnPhase i cmd s).1 m, (coreSpawnPhase i cmd s).2) := by
  unfold coreSpawnPhase spawnTestPed setMode
  dsimp only
  split_ifs <;> rfl

/-- Manual recall never reads the mode field. -/
lemma recallPhase_setMode (i : TickInputs) (s : LoopState) (m : CompanionMode) :
    recallPhase i (setMode s m) = (setMode (recallPhase i s).1 m, (recallPhase i s).2) := by
  unfold recallPhase teleportPedNearPlayer setMode
  dsimp only
  split_ifs <;> rfl

/-- The F6 toggle section never reads the mode field. -/
lemma f6Step_setMode (i : TickInputs) (s : LoopState) (m : CompanionMode) :
    f6Step i (setMode s m) = setMode (f6Step i s) m := by
  unfold f6Step setMode
  dsimp only
  split_ifs <;> rfl

/-- The sensor mirror never reads the mode field. -/
lemma mirrorStep_setMode (s : LoopState) (m : CompanionMode) :
    mirrorStep (setMode s m) = setMode (mirrorStep s) m := rfl

/-- The frame counter increment never reads the mode field. -/
lemma frameStep_setMode (s : LoopState) (m : CompanionMode) :
    frameStep (setMode s m) = setMode (frameStep s) m := rfl

/-- The executor block never reads the mode field. -/
lemma execPhase_setMode (i : TickInputs) (cmd : CompanionCommands) (s : LoopState)
    (m : CompanionMode) :
    execPhase i cmd (setMode s m)
      = (setMode (execPhase i cmd s).1 m, (execPhase i cmd s).2) := by
  simp only [execPhase, vehicleRidePhase_setMode, stayPhase_setMode,
    followPhase_setMode, autoTeleportPhase_setMode]

/-- The tick is the composition of its named sub-steps. -/
lemma tick_eq_alt : tick = tickAlt := rfl

/-- A whole tick never reads the mode field: running from a state with
the mode replaced gives the same effects and the same state up to the
replaced mode. -/
lemma tick_setMode (i : TickInputs) (s : LoopState) (m : CompanionMode) :
    tick i (setMode s m) = (setMode (tick i s).1 m, (tick i s).2) := by
  rw [tick_eq_alt]
  simp only [tickAlt, missionGatePhase_setMode, f6Step_setMode, buildCtx_setMode,
    mirrorStep_setMode, coreTick_setMode, execPhase_setMode, f7Phase_setMode,
    coreSpawnPhase_setMode, recallPhase_setMode, frameStep_setMode]

/-- The Mode Decision, stated on the core state alone: replacing the mode
field changes nothing about the produced commands. -/
lemma coreTick_mode_free (ctx : CompanionContext) (st : CompanionState)
    (m : CompanionMode) :
    CompanionCore.Tick ctx { st with mode := m } = CompanionCore.Tick ctx st := by
  unfold CompanionCore.Tick
  dsimp only

/-- Every tick leaves the mode field unchanged. -/
lemma tick_mode (i : TickInputs) (s : LoopState) :
    (tick i s).1.st.mode = s.st.mode :=
  congrArg (fun p => p.1.st.mode) (tick_setMode i s s.st.mode)

/-- Any run of ticks leaves the mode field unchanged. -/
lemma runTicks_mode (L : List TickInputs) (s : LoopState) :
    (runTicks L s).1.st.mode = s.st.mode := by
  induction L generalizing s with
  | nil => rfl
  | cons i rest ih =>
    simp only [runTicks]
    rw [ih, tick_mode]

/-- C10: no operation of the coordinator reads or writes the mode field.
The Mode Decision produces identical commands when the mode is replaced, so
stay/follow arbitration is decided solely by the stayEnabled flag; a whole
tick run from a mode-replaced state yields the very same effects and the
mode-replaced final state; every tick preserves the mode; and along any run
from the initial state the mode stays at its initial value Protection. -/
theorem C10_mode_frame :
    (∀ (ctx : CompanionContext) (st : CompanionState) (m : CompanionMode),
       CompanionCore.Tick ctx { st with mode := m } = CompanionCore.Tick ctx st)
    ∧ (∀ (i : TickInputs) (s : LoopState) (m : CompanionMode),
       tick i (setMode s m) = (setMode (tick i s).1 m, (tick i s).2))
    ∧ (∀ (i : TickInputs) (s : LoopState), (tick i s).1.st.mode = s.st.mode)
    ∧ (∀ L : List TickInputs,
       (runTicks L initialState).1.st.mode = CompanionMode.Protection) := by
  refine ⟨coreTick_mode_free, tick_setMode, tick_mode, fun L => ?_⟩
  rw [runTicks_mode]
  rfl

end CompanionMod
